import Mathlib

/-!
Shallow embedding of the `hpcmp` LZW-family decompressor (src/main.rs).

The source is a single Rust file.  Machine integers are modelled as `Nat`
with explicit wrap-around (`% u32Size`) exactly where the Rust `u32`
arithmetic can wrap, and the debug-mode arithmetic panics of the source
(shift amount ≥ 32 on a `u32`) as explicit error values.  Rust panics are
modelled as values of `RunError`; the five `panic!` sites of the source each
get their own constructor, and the implicit slice-indexing panic of
`dictionary[p]` gets a separate constructor (`indexOutOfBounds`) because it
is an unclassified runtime failure, distinct from the explicit
`panic!("Index to non-Value")` site.
-/

namespace Hpcmp

/-- wrap-around modulus of a 32-bit unsigned integer (2 ^ 32) -/
def u32Size : Nat := 4294967296

/-- the `enum Code` of the source: classification of one decoded unit. -/
inductive Code where
  | command : Nat → Code
  | value : Nat → Code
  | index : Nat → Code
deriving DecidableEq

/-- the `Code::from_u32` classification function of the source:
`c < 0x8` is a command, `c > 0x107` is a dictionary index `c - 0x108`,
anything else is a literal byte `c - 8`. -/
def Code.from_u32 (code : Nat) : Code :=
  if code < 0x8 then .command code
  else if code > 0x107 then .index (code - 0x108)
  else .value (code - 8)

/-- the `struct DictionaryEntry` of the source. -/
structure DictionaryEntry where
  value : Nat
  next : Code
deriving DecidableEq

/-- the `struct Reader` of the source (`bit_buffer: u32`, `available: u8`,
`read_width: u8`).  `bit_buffer` is kept below `u32Size` by masking on
update, mirroring `u32` wrap-around. -/
structure Reader where
  bit_buffer : Nat
  available : Nat
  read_width : Nat
deriving DecidableEq

/-- `Reader::new` -/
def Reader.new : Reader := ⟨0, 0, 9⟩

/-- every Rust panic reachable from `decompress`, one constructor per site. -/
inductive RunError where
  /-- the bare `panic!()` when `stream.read` yields no byte -/
  | truncatedStream
  /-- debug-mode overflow panic: a shift amount of 32 or more on a `u32`
  (`(buf[0] as u32) << self.available` or `1 << self.read_width`) -/
  | shiftOverflow
  /-- `panic!("Start marker not found.")` -/
  | missingStartMarker
  /-- `panic!("First byte not Value")` -/
  | firstNotValue
  /-- `panic!("Final byte not Value")` -/
  | finalNotValue
  /-- the implicit out-of-bounds slice panic of `dictionary[p]` -/
  | indexOutOfBounds
  /-- `panic!("Index to non-Value")` -/
  | corruptChain
deriving DecidableEq

/-- the top-up loop of `Reader::read`: while fewer than `read_width` bits are
available, pull one byte from the stream and OR it into the buffer shifted
left by the current `available` count.  An empty stream is the bare
`panic!()` (`truncatedStream`); a shift amount of 32 or more is the
debug-mode shift-overflow panic. -/
def Reader.fill (r : Reader) : List Nat → Except RunError (Reader × List Nat)
  | [] =>
    if r.available < r.read_width then .error .truncatedStream
    else .ok (r, [])
  | b :: rest =>
    if r.available < r.read_width then
      if 32 ≤ r.available then .error .shiftOverflow
      else Reader.fill ⟨(r.bit_buffer ||| (b <<< r.available)) % u32Size,
                        r.available + 8, r.read_width⟩ rest
    else .ok (r, b :: rest)

/-- the command side effects of `Reader::read`, applied to the post-extraction
reader state: command 1 resets buffer, bit count and width; command 2 widens
by one; command 3 clears buffer and bit count keeping the width. -/
def Reader.applyCommand (code : Code) (r : Reader) : Reader :=
  match code with
  | .command 1 => ⟨0, 0, 9⟩
  | .command 2 => ⟨r.bit_buffer, r.available, r.read_width + 1⟩
  | .command 3 => ⟨0, 0, r.read_width⟩
  | _ => r

/-- `Reader::read`: top up, extract the low `read_width` bits, shift them out,
classify, apply command side effects, return the classified code.  The mask
`(1 << read_width) - 1` is a `u32` shift, so `read_width ≥ 32` is the
debug-mode shift-overflow panic. -/
def Reader.read (r : Reader) (stream : List Nat) :
    Except RunError (Code × Reader × List Nat) :=
  match r.fill stream with
  | .error e => .error e
  | .ok (r₁, s₁) =>
    if 32 ≤ r₁.read_width then .error .shiftOverflow
    else
      let data := r₁.bit_buffer &&& ((1 <<< r₁.read_width) - 1)
      let r₂ : Reader := ⟨r₁.bit_buffer >>> r₁.read_width,
                          r₁.available - r₁.read_width, r₁.read_width⟩
      let code := Code.from_u32 data
      .ok (code, Reader.applyCommand code r₂, s₁)

/-- the control position inside `decompress`: before the start marker, at the
top of the outer (segment) loop, inside the inner loop, or after `return`. -/
inductive Phase where
  | awaitStart
  | segmentStart
  | streaming
  | done
deriving DecidableEq

/-- the mutable state of `decompress`: the reader, the unread input bytes, the
variables `prev`, `prev_data`, `prev_scratch_len`, `dictionary`, `out`, and
the control position.  `prev` and `prev_data` are declared without
initializers in the source (definite assignment); the model starts them at
`Code.value 0` and `0`, which are overwritten before first use. -/
structure DState where
  reader : Reader
  stream : List Nat
  prev : Code
  prev_data : Nat
  prev_scratch_len : Nat
  dictionary : List DictionaryEntry
  out : List Nat
  phase : Phase
deriving DecidableEq

/-- the state of `decompress` at entry, on a given input byte stream.
`prev_scratch_len` starts at 0 (`let mut prev_scratch_len = 0;`, line 96):
note this is the only place the source assigns 0 to it. -/
def initState (input : List Nat) : DState :=
  ⟨Reader.new, input, .value 0, 0, 0, [], [], .awaitStart⟩

/-- the chain-following `while let Index(p) = c` loop of `decompress`, fused
with the `if let Value(d)` check that follows it: a `value` terminates the
chain (prepending the literal, which becomes the new `prev_data`); a
`command` is the `panic!("Index to non-Value")` site; an `index` is looked
up, its byte prepended (`scratch.insert(0, ..)`), and the chain continues at
its `next` code — an out-of-range index is the implicit slice panic.  The
source loop has no bound, so `fuel` meters the iterations; `none` means the
loop ran longer than the fuel (on a cyclic chain the source diverges, which
the model renders as `none` for every fuel). -/
def chainLoop (dict : List DictionaryEntry) :
    Nat → Code → List Nat → Option (Except RunError (List Nat × Nat))
  | _, .value d, scratch => some (.ok (d :: scratch, d))
  | _, .command _, _ => some (.error .corruptChain)
  | 0, .index _, _ => none
  | fuel + 1, .index p, scratch =>
    match dict[p]? with
    | some e => chainLoop dict fuel e.next (e.value :: scratch)
    | none => some (.error .indexOutOfBounds)

/-- resolution of one non-command code: the KwK special case first (an index
equal to the current dictionary length prepends `prev_data` and restarts from
`prev`), then the chain loop.  Returns the emitted run (in output order) and
the literal at the bottom of the chain (the new `prev_data`). -/
def resolveCode (dict : List DictionaryEntry) (prev : Code) (prev_data : Nat)
    (fuel : Nat) (c : Code) : Option (Except RunError (List Nat × Nat)) :=
  match c with
  | .index p =>
    if p = dict.length then chainLoop dict fuel prev [prev_data]
    else chainLoop dict fuel c []
  | _ => chainLoop dict fuel c []

/-- one iteration of `decompress`'s control flow, from the state's phase:
`awaitStart` reads the start marker (anything else is
`panic!("Start marker not found.")`); `segmentStart` clears the dictionary
and reads the segment's first literal (anything else is
`panic!("First byte not Value")`); `streaming` reads one code and dispatches:
command 1 returns to `segmentStart`, command 3 reads one more code which must
be a literal (appended, then `return out`; anything else is
`panic!("Final byte not Value")`), other commands are ignored, and a value or
index code is resolved, emitted, and drives the dictionary-insertion policy
(`prev_scratch_len < 0x80 && dictionary.len() != 0x1000`).  `fuel` is passed
to the chain loop; `none` reports fuel exhaustion there. -/
def step (fuel : Nat) (s : DState) : Option (Except RunError DState) :=
  match s.phase with
  | .done => some (.ok s)
  | .awaitStart =>
    match Reader.read s.reader s.stream with
    | .error e => some (.error e)
    | .ok (code, r, st) =>
      if code = .command 1 then
        some (.ok { s with reader := r, stream := st, phase := .segmentStart })
      else some (.error .missingStartMarker)
  | .segmentStart =>
    match Reader.read s.reader s.stream with
    | .error e => some (.error e)
    | .ok (code, r, st) =>
      match code with
      | .value d =>
        some (.ok { s with reader := r, stream := st, dictionary := [],
                           out := s.out ++ [d], prev_data := d,
                           prev := .value d, phase := .streaming })
      | _ => some (.error .firstNotValue)
  | .streaming =>
    match Reader.read s.reader s.stream with
    | .error e => some (.error e)
    | .ok (code, r, st) =>
      match code with
      | .command n =>
        if n = 1 then
          some (.ok { s with reader := r, stream := st, phase := .segmentStart })
        else if n = 3 then
          match Reader.read r st with
          | .error e => some (.error e)
          | .ok (code₂, r₂, st₂) =>
            match code₂ with
            | .value last =>
              some (.ok { s with reader := r₂, stream := st₂,
                                 out := s.out ++ [last], phase := .done })
            | _ => some (.error .finalNotValue)
        else
          some (.ok { s with reader := r, stream := st })
      | _ =>
        match resolveCode s.dictionary s.prev s.prev_data fuel code with
        | none => none
        | some (.error e) => some (.error e)
        | some (.ok (scratch, d)) =>
          some (.ok { s with reader := r, stream := st, prev_data := d,
                             dictionary :=
                               if s.prev_scratch_len < 0x80 ∧
                                   s.dictionary.length ≠ 0x1000 then
                                 s.dictionary ++ [⟨d, s.prev⟩]
                               else s.dictionary,
                             prev_scratch_len := scratch.length,
                             out := s.out ++ scratch, prev := code })

/-- the driver: iterate `step` until the `done` phase, whose `out` is the
value `decompress` returns.  `fuel` bounds both the iteration count and each
chain loop; `none` means fuel ran out (the source has no such bound and
simply keeps running). -/
def run (fuel : Nat) (s : DState) : Option (Except RunError (List Nat)) :=
  match fuel with
  | 0 => none
  | f + 1 =>
    match s.phase with
    | .done => some (.ok s.out)
    | _ =>
      match step f s with
      | none => none
      | some (.error e) => some (.error e)
      | some (.ok s') => run f s'

/-- `decompress` on an input byte stream, with fuel. -/
def decompress (fuel : Nat) (input : List Nat) :
    Option (Except RunError (List Nat)) :=
  run fuel (initState input)

/-- iterate `step` a fixed number of times, requiring every step to succeed. -/
def stepsOk (fuel : Nat) : Nat → DState → Option DState
  | 0, s => some s
  | n + 1, s =>
    match step fuel s with
    | some (.ok s') => stepsOk fuel n s'
    | _ => none

/-- read `n` consecutive codes with one reader (test scaffolding for the
reader-level claims). -/
def readN : Nat → Reader → List Nat → Except RunError (List Code × Reader × List Nat)
  | 0, r, s => .ok ([], r, s)
  | n + 1, r, s =>
    match Reader.read r s with
    | .error e => .error e
    | .ok (c, r', s') =>
      match readN n r' s' with
      | .error e => .error e
      | .ok (cs, r'', s'') => .ok (c :: cs, r'', s'')

/-- test-input scaffolding: serialize the given number of little-endian bytes
of a bit string. -/
def bytesLE : Nat → Nat → List Nat
  | _, 0 => []
  | v, k + 1 => (v % 256) :: bytesLE (v / 256) k

/-- test-input scaffolding: pack a list of (code value, bit width) pairs
least-significant-bit-first into bytes, zero-padded to a byte boundary —
the wire format `Reader::read` consumes.  Chunks ending in a reset or
realign command are packed separately, since those commands discard the
partially consumed byte. -/
def packCodes (cs : List (Nat × Nat)) : List Nat :=
  let p := cs.foldl (fun acc c => (acc.1 ||| (c.1 <<< acc.2), acc.2 + c.2)) (0, 0)
  bytesLE p.1 ((p.2 + 7) / 8)

end Hpcmp

deriving instance DecidableEq for Except

namespace Hpcmp

/-- the §8 example stream: `Command(1), Value(65), Value(66), Command(3),
Value(67)` at 9-bit width (raw code values 1, 0x49, 0x4A, 3, 0x4B), packed
with a byte-boundary realignment after each reset/realign command. -/
def c7Input : List Nat :=
  packCodes [(1, 9)] ++ packCodes [(0x49, 9), (0x4A, 9), (3, 9)] ++
    packCodes [(0x4B, 9)]

/-- a first segment that pumps `prev_scratch_len` up to 128: a literal
followed by 127 KwK index codes (each emits a run one byte longer than the
previous one), then a reset command. -/
def pumpCodes : List (Nat × Nat) :=
  (0x49, 9) :: ((List.range 127).map (fun k => (0x108 + k, 9)) ++ [(1, 9)])

/-- start marker plus the pumping segment. -/
def pumpPrefix : List Nat := packCodes [(1, 9)] ++ packCodes pumpCodes

/-- a two-segment stream: `Command(1), Value(65), Value(66), Command(1),
Value(67)`.  Resolving `Value(66)` leaves `prev_scratch_len = 1`, and the
reset does not clear it, so the second segment starts with
`prev_scratch_len = 1`, not 0. -/
def c1Input : List Nat :=
  packCodes [(1, 9)] ++ packCodes [(0x49, 9), (0x4A, 9), (1, 9)] ++
    packCodes [(0x4B, 9)]

/-- after the pump and reset: a fresh segment `Value(66), Index(0), Value(69)`.
The `Index(0)` is a KwK code whose insertion is skipped (the carried-over
`prev_scratch_len` is 128), leaving `prev = Index(0)` while the dictionary is
still empty; the following literal then inserts slot 0 with `next = Index(0)`,
a self-referential entry. -/
def c8Input : List Nat :=
  pumpPrefix ++ packCodes [(0x4A, 9), (0x108, 9), (0x4D, 9)]

/-- start marker, one literal, then `Index(5)` into an empty dictionary —
an out-of-range index that is not the KwK slot. -/
def c9Input : List Nat := packCodes [(1, 9)] ++ packCodes [(0x49, 9), (0x108 + 5, 9)]

/-- 23 widen commands (read at widths 9, 10, …, 31), taking `read_width` to
32, followed by spare bytes so the next read fails on the mask shift rather
than on stream exhaustion. -/
def c10PanicBytes : List Nat :=
  packCodes ((List.range 23).map (fun k => (2, 9 + k))) ++ [0, 0, 0, 0]

/-- 21 widen commands, taking `read_width` to 30 with one leftover buffered
bit, so the next top-up shifts a byte left by 25 bits. -/
def widenPrefix : List Nat := packCodes ((List.range 21).map (fun k => (2, 9 + k)))

/-- the widen prefix followed by four data bytes whose last byte has its top
bit set: that bit lands at position 32 of the 32-bit buffer and is dropped. -/
def dropA : List Nat := widenPrefix ++ [0, 0, 0, 0x80]

/-- the same stream with the dropped bit cleared. -/
def dropB : List Nat := widenPrefix ++ [0, 0, 0, 0]

/-- the reflexive-transitive closure of successful `step`s. -/
inductive Reaches : DState → DState → Prop where
  | refl (s : DState) : Reaches s s
  | tail (s s' s'' : DState) (fuel : Nat) :
      Reaches s s' → step fuel s' = some (.ok s'') → Reaches s s''

/-- a decoder state is reachable on an input if some sequence of successful
steps from the entry state produces it. -/
def Reachable (input : List Nat) (s : DState) : Prop :=
  Reaches (initState input) s

/-- well-formedness of one dictionary slot: its `next` link is a literal or
an index pointing no later than the slot itself. -/
def EntryWF (i : Nat) (e : DictionaryEntry) : Prop :=
  (∃ b, e.next = Code.value b) ∨ ∃ q, e.next = Code.index q ∧ q ≤ i

/-- well-formedness of a decoder state: every dictionary slot is well-formed
and `prev` is a literal or an index no larger than the dictionary length. -/
def StateWF (s : DState) : Prop :=
  (∀ i e, s.dictionary[i]? = some e → EntryWF i e) ∧
  ((∃ b, s.prev = Code.value b) ∨
    ∃ q, s.prev = Code.index q ∧ q ≤ s.dictionary.length)

/-- the dictionary shape produced by the run-pumping prefix of `c8Input`:
slot 0 is the literal run seed and each later slot extends the previous
one by the same byte. -/
def pumpEntry : Nat → DictionaryEntry
  | 0 => ⟨65, .value 65⟩
  | j + 1 => ⟨65, .index j⟩

/-- the first `k` pump entries, as the dictionary the trace builds. -/
def pumpDict (k : Nat) : List DictionaryEntry := (List.range k).map pumpEntry

theorem fill_read_width (stream : List Nat) : ∀ (r r₁ : Reader)
    (s₁ : List Nat), Reader.fill r stream = .ok (r₁, s₁) →
    r₁.read_width = r.read_width := by
  induction stream with
  | nil =>
    intro r r₁ s₁ h
    unfold Reader.fill at h
    by_cases hlt : r.available < r.read_width
    · rw [if_pos hlt] at h
      exact Except.noConfusion h
    · rw [if_neg hlt] at h
      cases h; rfl
  | cons b rest ih =>
    intro r r₁ s₁ h
    unfold Reader.fill at h
    by_cases hlt : r.available < r.read_width
    · rw [if_pos hlt] at h
      by_cases hsh : 32 ≤ r.available
      · rw [if_pos hsh] at h
        exact Except.noConfusion h
      · rw [if_neg hsh] at h
        exact ih ⟨(r.bit_buffer ||| b <<< r.available) % u32Size,
          r.available + 8, r.read_width⟩ r₁ s₁ h
    · rw [if_neg hlt] at h
      cases h; rfl

theorem chainLoop_append (dict : List DictionaryEntry) :
    ∀ (fuel : Nat) (c : Code) (s₁ s₂ run : List Nat) (d : Nat),
      chainLoop dict fuel c s₁ = some (.ok (run, d)) →
      chainLoop dict fuel c (s₁ ++ s₂) = some (.ok (run ++ s₂, d)) := by
  intro fuel
  induction fuel with
  | zero =>
    intro c s₁ s₂ run d h
    cases c with
    | value v => cases h; rfl
    | command n => exact absurd h (by simp [chainLoop])
    | index p => exact absurd h (by simp [chainLoop])
  | succ f ih =>
    intro c s₁ s₂ run d h
    cases c with
    | value v => cases h; rfl
    | command n => exact absurd h (by simp [chainLoop])
    | index p =>
      rw [chainLoop] at h ⊢
      cases he : dict[p]? with
      | none =>
        rw [he] at h
        exact absurd h (by simp)
      | some e =>
        rw [he] at h
        exact ih e.next (e.value :: s₁) s₂ run d h

theorem resolveCode_index_le (dict : List DictionaryEntry) (prev : Code)
    (prev_data : Nat) (fuel : Nat) (p : Nat) (x : List Nat × Nat)
    (h : resolveCode dict prev prev_data fuel (.index p) = some (.ok x)) :
    p ≤ dict.length := by
  simp only [resolveCode] at h
  by_cases hp : p = dict.length
  · omega
  · rw [if_neg hp] at h
    cases fuel with
    | zero => exact absurd h (by simp [chainLoop])
    | succ f =>
      rw [chainLoop] at h
      cases he : dict[p]? with
      | none =>
        rw [he] at h
        exact absurd h (by simp)
      | some e =>
        have hplt : p < dict.length := by
          by_contra hge
          rw [List.getElem?_eq_none (by omega)] at he
          exact Option.noConfusion he
        omega

/-- exhaustive description of every successful `step`: exactly one of the
seven transition shapes happened. -/
theorem step_ok_inversion (fuel : Nat) (s s' : DState)
    (h : step fuel s = some (.ok s')) :
    (s.phase = .done ∧ s' = s) ∨
    (∃ r st, s.phase = .awaitStart ∧
       Reader.read s.reader s.stream = .ok (.command 1, r, st) ∧
       s' = { s with reader := r, stream := st, phase := .segmentStart }) ∨
    (∃ d r st, s.phase = .segmentStart ∧
       Reader.read s.reader s.stream = .ok (.value d, r, st) ∧
       s' = { s with reader := r, stream := st, dictionary := [],
                     out := s.out ++ [d], prev_data := d, prev := .value d,
                     phase := .streaming }) ∨
    (∃ r st, s.phase = .streaming ∧
       Reader.read s.reader s.stream = .ok (.command 1, r, st) ∧
       s' = { s with reader := r, stream := st, phase := .segmentStart }) ∨
    (∃ r st last r₂ st₂, s.phase = .streaming ∧
       Reader.read s.reader s.stream = .ok (.command 3, r, st) ∧
       Reader.read r st = .ok (.value last, r₂, st₂) ∧
       s' = { s with reader := r₂, stream := st₂, out := s.out ++ [last],
                     phase := .done }) ∨
    (∃ n r st, s.phase = .streaming ∧ n ≠ 1 ∧ n ≠ 3 ∧
       Reader.read s.reader s.stream = .ok (.command n, r, st) ∧
       s' = { s with reader := r, stream := st }) ∨
    (∃ code r st scratch d, s.phase = .streaming ∧ (∀ n, code ≠ .command n) ∧
       Reader.read s.reader s.stream = .ok (code, r, st) ∧
       resolveCode s.dictionary s.prev s.prev_data fuel code =
         some (.ok (scratch, d)) ∧
       s' = { s with reader := r, stream := st, prev_data := d,
                     dictionary :=
                       if s.prev_scratch_len < 0x80 ∧
                           s.dictionary.length ≠ 0x1000 then
                         s.dictionary ++ [⟨d, s.prev⟩]
                       else s.dictionary,
                     prev_scratch_len := scratch.length,
                     out := s.out ++ scratch,
                     prev := code }) := by
  unfold step at h
  split at h
  · rename_i hph
    left
    exact ⟨hph, ((Except.ok.inj (Option.some.inj h))).symm⟩
  · rename_i hph
    split at h
    · exact absurd h (by simp)
    · rename_i code r st hre
      split at h
      · rename_i hc
        subst hc
        right; left
        exact ⟨r, st, hph, hre, ((Except.ok.inj (Option.some.inj h))).symm⟩
      · exact absurd h (by simp)
  · rename_i hph
    split at h
    · exact absurd h (by simp)
    · rename_i code r st hre
      split at h
      · rename_i d
        right; right; left
        exact ⟨d, r, st, hph, hre, ((Except.ok.inj (Option.some.inj h))).symm⟩
      · exact absurd h (by simp)
  · rename_i hph
    split at h
    · exact absurd h (by simp)
    · rename_i code r st hre
      split at h
      · rename_i n
        split at h
        · rename_i hn1
          subst hn1
          right; right; right; left
          exact ⟨r, st, hph, hre, ((Except.ok.inj (Option.some.inj h))).symm⟩
        · rename_i hn1
          split at h
          · rename_i hn3
            subst hn3
            split at h
            · exact absurd h (by simp)
            · rename_i code₂ r₂ st₂ hre₂
              split at h
              · rename_i last
                right; right; right; right; left
                exact ⟨r, st, last, r₂, st₂, hph, hre, hre₂,
                  ((Except.ok.inj (Option.some.inj h))).symm⟩
              · exact absurd h (by simp)
          · rename_i hn3
            right; right; right; right; right; left
            exact ⟨n, r, st, hph, hn1, hn3, hre,
              ((Except.ok.inj (Option.some.inj h))).symm⟩
      · rename_i hcmd
        split at h
        · exact absurd h (by simp)
        · exact absurd h (by simp)
        · rename_i scratch d hres
          right; right; right; right; right; right
          refine ⟨code, r, st, scratch, d, hph, ?_, hre, hres,
            ((Except.ok.inj (Option.some.inj h))).symm⟩
          intro n hcn
          exact hcmd n hcn

theorem reaches_dict_le (s₀ s : DState) (h : Reaches s₀ s)
    (h₀ : s₀.dictionary.length ≤ 0x1000) : s.dictionary.length ≤ 0x1000 := by
  induction h with
  | refl => exact h₀
  | tail s' s'' fuel _ hstep ih =>
    rcases step_ok_inversion fuel s' s'' hstep with
      ⟨_, rfl⟩ | ⟨r, st, _, _, rfl⟩ | ⟨d, r, st, _, _, rfl⟩ |
      ⟨r, st, _, _, rfl⟩ | ⟨r, st, last, r₂, st₂, _, _, _, rfl⟩ |
      ⟨n, r, st, _, _, _, _, rfl⟩ | ⟨code, r, st, scratch, d, _, _, _, _, rfl⟩
    · exact ih
    · exact ih
    · simp
    · exact ih
    · exact ih
    · exact ih
    · by_cases hc : s'.prev_scratch_len < 0x80 ∧ s'.dictionary.length ≠ 0x1000
      · have h2 := hc.2
        simp only [if_pos hc]
        show (s'.dictionary ++ [DictionaryEntry.mk d s'.prev]).length ≤ 0x1000
        rw [List.length_append]
        simp only [List.length_cons, List.length_nil]
        omega
      · simp only [if_neg hc]
        exact ih

theorem Reaches.head {s s' s'' : DState} {fuel : Nat}
    (h : step fuel s = some (.ok s')) (hr : Reaches s' s'') : Reaches s s'' := by
  induction hr with
  | refl => exact Reaches.tail s s s' fuel (Reaches.refl s) h
  | tail t' t'' f _ hstep ih => exact Reaches.tail s t' t'' f ih hstep

theorem stepsOk_reaches (fuel : Nat) :
    ∀ (n : Nat) (s s' : DState), stepsOk fuel n s = some s' → Reaches s s' := by
  intro n
  induction n with
  | zero => intro s s' h; cases h; exact Reaches.refl s
  | succ n ih =>
    intro s s' h
    unfold stepsOk at h
    cases hs : step fuel s with
    | none => rw [hs] at h; exact absurd h (by simp)
    | some x =>
      rw [hs] at h
      cases x with
      | error e => exact absurd h (by simp)
      | ok t => exact Reaches.head hs (ih t s' h)

theorem run_ok_reaches (fuel : Nat) :
    ∀ (s : DState) (out : List Nat), run fuel s = some (.ok out) →
      ∃ s', Reaches s s' ∧ s'.phase = .done ∧ out = s'.out := by
  induction fuel with
  | zero => intro s out h; exact absurd h (by simp [run])
  | succ f ih =>
    intro s out h
    unfold run at h
    by_cases hd : s.phase = .done
    · rw [hd] at h
      refine ⟨s, Reaches.refl s, hd, ?_⟩
      cases h; rfl
    · have hmatch : (match s.phase with
        | .done => some (.ok s.out)
        | _ => (match step f s with
                | none => none
                | some (.error e) => some (.error e)
                | some (.ok s') => run f s')) = some (.ok out) := h
      cases hph : s.phase with
      | done => exact absurd hph hd
      | awaitStart =>
        rw [hph] at hmatch
        cases hs : step f s with
        | none => rw [hs] at hmatch; exact absurd hmatch (by simp)
        | some x =>
          rw [hs] at hmatch
          cases x with
          | error e => exact absurd hmatch (by simp)
          | ok t =>
            obtain ⟨s', hre, hdone, hout⟩ := ih t out hmatch
            exact ⟨s', Reaches.head hs hre, hdone, hout⟩
      | segmentStart =>
        rw [hph] at hmatch
        cases hs : step f s with
        | none => rw [hs] at hmatch; exact absurd hmatch (by simp)
        | some x =>
          rw [hs] at hmatch
          cases x with
          | error e => exact absurd hmatch (by simp)
          | ok t =>
            obtain ⟨s', hre, hdone, hout⟩ := ih t out hmatch
            exact ⟨s', Reaches.head hs hre, hdone, hout⟩
      | streaming =>
        rw [hph] at hmatch
        cases hs : step f s with
        | none => rw [hs] at hmatch; exact absurd hmatch (by simp)
        | some x =>
          rw [hs] at hmatch
          cases x with
          | error e => exact absurd hmatch (by simp)
          | ok t =>
            obtain ⟨s', hre, hdone, hout⟩ := ih t out hmatch
            exact ⟨s', Reaches.head hs hre, hdone, hout⟩

theorem reaches_wf (s₀ s : DState) (h : Reaches s₀ s) (h₀ : StateWF s₀) :
    StateWF s := by
  induction h with
  | refl => exact h₀
  | tail s' s'' fuel _ hstep ih =>
    rcases step_ok_inversion fuel s' s'' hstep with
      ⟨_, rfl⟩ | ⟨r, st, _, _, rfl⟩ | ⟨d, r, st, _, _, rfl⟩ |
      ⟨r, st, _, _, rfl⟩ | ⟨r, st, last, r₂, st₂, _, _, _, rfl⟩ |
      ⟨n, r, st, _, _, _, _, rfl⟩ |
      ⟨code, r, st, scratch, d, _, hcmd, _, hres, rfl⟩
    · exact ih
    · exact ih
    · constructor
      · intro i e he
        exact absurd he (by simp)
      · exact Or.inl ⟨d, rfl⟩
    · exact ih
    · exact ih
    · exact ih
    · constructor
      · show ∀ i e,
          (if s'.prev_scratch_len < 0x80 ∧ s'.dictionary.length ≠ 0x1000
           then s'.dictionary ++ [DictionaryEntry.mk d s'.prev]
           else s'.dictionary)[i]? = some e → EntryWF i e
        intro i e he
        by_cases hc : s'.prev_scratch_len < 0x80 ∧ s'.dictionary.length ≠ 0x1000
        · rw [if_pos hc] at he
          by_cases hi : i < s'.dictionary.length
          · rw [List.getElem?_append_left hi] at he
            exact ih.1 i e he
          · by_cases hieq : i = s'.dictionary.length
            · subst hieq
              rw [List.getElem?_concat_length] at he
              cases he
              rcases ih.2 with ⟨b, hb⟩ | ⟨q, hq, hqle⟩
              · exact Or.inl ⟨b, hb⟩
              · exact Or.inr ⟨q, hq, hqle⟩
            · rw [List.getElem?_eq_none (by simp only [List.length_append,
                List.length_cons, List.length_nil]; omega)] at he
              exact Option.noConfusion he
        · rw [if_neg hc] at he
          exact ih.1 i e he
      · show (∃ b, code = Code.value b) ∨
          ∃ q, code = Code.index q ∧ q ≤
            (if s'.prev_scratch_len < 0x80 ∧ s'.dictionary.length ≠ 0x1000
             then s'.dictionary ++ [DictionaryEntry.mk d s'.prev]
             else s'.dictionary).length
        cases code with
        | command n => exact absurd rfl (hcmd n)
        | value b => exact Or.inl ⟨b, rfl⟩
        | index p =>
          refine Or.inr ⟨p, rfl, ?_⟩
          have hple := resolveCode_index_le s'.dictionary s'.prev s'.prev_data
            fuel p (scratch, d) hres
          have hdle : s'.dictionary.length ≤
              (if s'.prev_scratch_len < 0x80 ∧ s'.dictionary.length ≠ 0x1000
               then s'.dictionary ++ [DictionaryEntry.mk d s'.prev]
               else s'.dictionary).length := by
            by_cases hc : s'.prev_scratch_len < 0x80 ∧
                s'.dictionary.length ≠ 0x1000
            · rw [if_pos hc]
              simp
            · rw [if_neg hc]
          exact le_trans hple hdle

theorem applyCommand_other (c : Code) (hc1 : c ≠ .command 1)
    (hc2 : c ≠ .command 2) (hc3 : c ≠ .command 3) (r : Reader) :
    Reader.applyCommand c r = r := by
  cases c with
  | value v => rfl
  | index p => rfl
  | command n =>
    match n, hc1, hc2, hc3 with
    | 0, _, _, _ => rfl
    | 1, hc1, _, _ => exact absurd rfl hc1
    | 2, _, hc2, _ => exact absurd rfl hc2
    | 3, _, _, hc3 => exact absurd rfl hc3
    | n + 4, _, _, _ => rfl

/-- Claim C2: for every unsigned integer code value `c`, `Code::from_u32`
classifies by numeric range alone — `Command(c)` when `c < 8`,
`Index(c − 0x108)` when `c > 0x107`, and `Value(c − 8)` otherwise — totally
(the three ranges cover every `c`) and mutually exclusively (the ranges are
pairwise disjoint).  The function takes no other input, in particular no bit
width, so the classification is width-independent by construction. -/
theorem code_classification (c : Nat) :
    (c < 8 → Code.from_u32 c = .command c) ∧
    (0x107 < c → Code.from_u32 c = .index (c - 0x108)) ∧
    (8 ≤ c → c ≤ 0x107 → Code.from_u32 c = .value (c - 8)) ∧
    (c < 8 ∨ (8 ≤ c ∧ c ≤ 0x107) ∨ 0x107 < c) ∧
    ¬(c < 8 ∧ 8 ≤ c) ∧ ¬(c < 8 ∧ 0x107 < c) ∧ ¬(c ≤ 0x107 ∧ 0x107 < c) := by
  refine ⟨?_, ?_, ?_, by omega, by omega, by omega, by omega⟩
  · intro h
    unfold Code.from_u32
    rw [if_pos h]
  · intro h
    unfold Code.from_u32
    rw [if_neg (by omega), if_pos h]
  · intro h1 h2
    unfold Code.from_u32
    rw [if_neg (by omega), if_neg (by omega)]

/-- Claim C2 witness: the classification evaluated once in each range. -/
theorem code_classification_witness :
    Code.from_u32 3 = .command 3 ∧ Code.from_u32 0x150 = .index 0x48 ∧
    Code.from_u32 0x49 = .value 0x41 :=
  ⟨(code_classification 3).1 (by omega),
   (code_classification 0x150).2.1 (by omega),
   (code_classification 0x49).2.2.1 (by omega) (by omega)⟩

/-- Claim C5: `Reader::read` applies the control side effects after
extracting the code and before returning it.  With `r₁` the post-top-up
state: a returned `Command(1)` leaves the reader at
`⟨0, 0, 9⟩`; `Command(2)` leaves the post-extraction buffer and bit count
with the width incremented by exactly 1; `Command(3)` zeroes buffer and bit
count with the width unchanged; any other code leaves exactly the
post-extraction state (buffer shifted right by the width, `available`
decremented by the width, width unchanged). -/
theorem reader_read_effects (r : Reader) (stream : List Nat) (c : Code)
    (r' : Reader) (st : List Nat) (r₁ : Reader) (s₁ : List Nat)
    (hf : Reader.fill r stream = .ok (r₁, s₁))
    (h : Reader.read r stream = .ok (c, r', st)) :
    r₁.read_width = r.read_width ∧ r₁.read_width < 32 ∧ st = s₁ ∧
    c = Code.from_u32 (r₁.bit_buffer &&& ((1 <<< r₁.read_width) - 1)) ∧
    (c = .command 1 → r' = ⟨0, 0, 9⟩) ∧
    (c = .command 2 → r' = ⟨r₁.bit_buffer >>> r₁.read_width,
        r₁.available - r₁.read_width, r.read_width + 1⟩) ∧
    (c = .command 3 → r' = ⟨0, 0, r.read_width⟩) ∧
    (c ≠ .command 1 → c ≠ .command 2 → c ≠ .command 3 →
        r' = ⟨r₁.bit_buffer >>> r₁.read_width, r₁.available - r₁.read_width,
              r.read_width⟩) := by
  have hw := fill_read_width stream r r₁ s₁ hf
  simp only [Reader.read, hf] at h
  by_cases h32 : 32 ≤ r₁.read_width
  · rw [if_pos h32] at h
    exact absurd h (by simp)
  · rw [if_neg h32] at h
    rw [Except.ok.injEq, Prod.mk.injEq, Prod.mk.injEq] at h
    obtain ⟨hc, hr', hst⟩ := h
    refine ⟨hw, by omega, hst.symm, hc.symm, ?_, ?_, ?_, ?_⟩
    · intro h1
      rw [hc, h1] at hr'
      simp only [Reader.applyCommand] at hr'
      exact hr'.symm
    · intro h2
      rw [hc, h2] at hr'
      simp only [Reader.applyCommand] at hr'
      rw [← hr', ← hw]
    · intro h3
      rw [hc, h3] at hr'
      simp only [Reader.applyCommand] at hr'
      rw [← hr', ← hw]
    · intro h1 h2 h3
      rw [hc] at hr'
      rw [applyCommand_other c h1 h2 h3] at hr'
      rw [← hr', ← hw]

/-- Claim C5 witness: reading the 9-bit code 1 (reset) from the two-byte
stream `[1, 0]` returns `Command(1)` and resets the reader. -/
theorem reader_read_effects_witness :
    Code.command 1 = Code.from_u32 (1 &&& ((1 <<< 9) - 1)) :=
  (reader_read_effects Reader.new [1, 0] (.command 1) ⟨0, 0, 9⟩ []
    ⟨1, 16, 9⟩ [] (by decide) (by decide)).2.2.2.1

/-- Claim C10: the widen command is applied with no upper bound — every
returned `Command(2)` increments the width by 1 unconditionally.  On the
concrete stream `c10PanicBytes` (23 widen commands), the width reaches 32
and the next read fails with the shift-overflow panic
(`1 << 32` on a `u32`) instead of a code or a classified error.  On the
`dropA`/`dropB` pair (21 widen commands then four data bytes), the width is
30 and the top-up shifts the final byte left by 25 bits, so its top bit
falls off the 32-bit buffer: the two streams differ only in that bit yet
every read result is identical — the bit is silently dropped. -/
theorem widen_unbounded :
    (∀ (r : Reader) (stream : List Nat) (c : Code) (r' : Reader)
        (st : List Nat), Reader.read r stream = .ok (c, r', st) →
        c = .command 2 → r'.read_width = r.read_width + 1) ∧
    Except.map (fun x => x.2.1.read_width) (readN 23 Reader.new c10PanicBytes)
      = .ok 32 ∧
    readN 24 Reader.new c10PanicBytes = .error .shiftOverflow ∧
    readN 22 Reader.new dropA = readN 22 Reader.new dropB ∧ dropA ≠ dropB := by
  refine ⟨?_, by decide, by decide, by decide, by decide⟩
  intro r stream c r' st h hc
  cases hf : Reader.fill r stream with
  | error e =>
    simp only [Reader.read, hf] at h
    exact absurd h (by simp)
  | ok x =>
    obtain ⟨r₁, s₁⟩ := x
    have hw := fill_read_width stream r r₁ s₁ hf
    simp only [Reader.read, hf] at h
    by_cases h32 : 32 ≤ r₁.read_width
    · rw [if_pos h32] at h
      exact absurd h (by simp)
    · rw [if_neg h32] at h
      rw [Except.ok.injEq, Prod.mk.injEq, Prod.mk.injEq] at h
      obtain ⟨hcode, hr', hst⟩ := h
      subst hc
      rw [hcode] at hr'
      simp only [Reader.applyCommand] at hr'
      rw [← hr']
      show r₁.read_width + 1 = r.read_width + 1
      omega

/-- Claim C10 witness: one widen code read at width 9 leaves the reader at
width 10. -/
theorem widen_unbounded_witness :
    (Reader.mk 0 7 10).read_width = Reader.new.read_width + 1 :=
  widen_unbounded.1 Reader.new [2, 0] (.command 2) ⟨0, 7, 10⟩ []
    (by decide) rfl

/-- Claim C3: resolving `Index(p)` with `p` equal to the current dictionary
length (the KwK case) emits exactly the run `prev` resolves to followed by
`prev_data` (the previous literal) as the final byte.  The statement holds
for an arbitrary dictionary of length `p`, which has no slot `p` at all, so
no lookup at slot `p` is involved. -/
theorem kwk_resolution (dict : List DictionaryEntry) (prev : Code)
    (prev_data : Nat) (fuel : Nat) (run : List Nat) (d : Nat)
    (h : chainLoop dict fuel prev [] = some (.ok (run, d))) :
    resolveCode dict prev prev_data fuel (.index dict.length) =
      some (.ok (run ++ [prev_data], d)) := by
  simp only [resolveCode, if_true]
  exact chainLoop_append dict fuel prev [] [prev_data] run d h

/-- Claim C3 witness: the KwK code `Index(1)` over a one-entry dictionary
whose `prev` is `Index(0)` emits that entry's run `[7, 7]` followed by the
previous literal 9. -/
theorem kwk_resolution_witness :
    resolveCode [⟨7, .value 7⟩] (.index 0) 9 5 (.index 1) =
      some (.ok ([7, 7, 9], 7)) :=
  kwk_resolution [⟨7, .value 7⟩] (.index 0) 9 5 [7, 7] 7 (by decide)

/-- Claim C4: after a non-control code resolves in the streaming state, the
new state appends the entry `{ value := d, next := prev }` (with `d` the
newly resolved base literal and `prev` the previous code) exactly when
`prev_scratch_len < 0x80` and the dictionary length is not `0x1000`, and
otherwise leaves the dictionary unchanged; consequently the dictionary of
every reachable state has at most 0x1000 = 4096 entries. -/
theorem dictionary_insertion_policy :
    (∀ (fuel : Nat) (s : DState) (code : Code) (r : Reader)
        (st scratch : List Nat) (d : Nat), s.phase = .streaming →
        Reader.read s.reader s.stream = .ok (code, r, st) →
        (∀ n, code ≠ .command n) →
        resolveCode s.dictionary s.prev s.prev_data fuel code =
          some (.ok (scratch, d)) →
        step fuel s = some (.ok { s with reader := r, stream := st,
                                         prev_data := d,
                                         dictionary :=
                                           if s.prev_scratch_len < 0x80 ∧
                                               s.dictionary.length ≠ 0x1000
                                           then s.dictionary ++ [⟨d, s.prev⟩]
                                           else s.dictionary,
                                         prev_scratch_len := scratch.length,
                                         out := s.out ++ scratch,
                                         prev := code })) ∧
    (∀ (input : List Nat) (s : DState), Reachable input s →
        s.dictionary.length ≤ 0x1000) := by
  constructor
  · intro fuel s code r st scratch d hph hre hcmd hres
    cases code with
    | command n => exact absurd rfl (hcmd n)
    | value v => simp only [step, hph, hre, hres]
    | index p => simp only [step, hph, hre, hres]
  · intro input s h
    exact reaches_dict_le (initState input) s h (Nat.zero_le _)

/-- Claim C4 witness: a literal code resolved in a small streaming state
inserts one entry. -/
theorem dictionary_insertion_policy_witness :
    step 5 (DState.mk ⟨0, 0, 9⟩ [0x4A, 0] (.value 0x41) 0x41 0 [] [0x41]
        .streaming) =
      some (.ok ⟨⟨0, 7, 9⟩, [], .value 0x42, 0x42, 1,
        [⟨0x42, .value 0x41⟩], [0x41, 0x42], .streaming⟩) :=
  dictionary_insertion_policy.1 5
    ⟨⟨0, 0, 9⟩, [0x4A, 0], .value 0x41, 0x41, 0, [], [0x41], .streaming⟩
    (.value 0x42) ⟨0, 7, 9⟩ [] [0x42] 0x42 rfl (by decide)
    (fun n h => Code.noConfusion h) (by decide)

/-- Claim C6: reading `Command(3)` in the streaming state reads exactly one
more code: a literal `Value(last)` is appended to the output and the phase
becomes `done`; anything else fails with the `Final byte not Value` panic
(`ExpectedFinalLiteral`).  The `done` phase (from which alone a run returns
its output) is produced by no other transition, so this is the only normal
termination path. -/
theorem command3_ends_stream :
    (∀ (fuel : Nat) (s : DState) (r : Reader) (st : List Nat) (last : Nat)
        (r₂ : Reader) (st₂ : List Nat), s.phase = .streaming →
        Reader.read s.reader s.stream = .ok (.command 3, r, st) →
        Reader.read r st = .ok (.value last, r₂, st₂) →
        step fuel s = some (.ok { s with reader := r₂, stream := st₂,
                                         out := s.out ++ [last],
                                         phase := .done })) ∧
    (∀ (fuel : Nat) (s : DState) (r : Reader) (st : List Nat) (c₂ : Code)
        (r₂ : Reader) (st₂ : List Nat), s.phase = .streaming →
        Reader.read s.reader s.stream = .ok (.command 3, r, st) →
        Reader.read r st = .ok (c₂, r₂, st₂) → (∀ b, c₂ ≠ .value b) →
        step fuel s = some (.error .finalNotValue)) ∧
    (∀ (fuel : Nat) (s s' : DState), step fuel s = some (.ok s') →
        s'.phase = .done → s.phase = .done ∨
        ∃ r st last r₂ st₂,
          Reader.read s.reader s.stream = .ok (.command 3, r, st) ∧
          Reader.read r st = .ok (.value last, r₂, st₂) ∧
          s' = { s with reader := r₂, stream := st₂, out := s.out ++ [last],
                        phase := .done }) ∧
    (∀ (fuel : Nat) (input out : List Nat),
        decompress fuel input = some (.ok out) →
        ∃ s', Reachable input s' ∧ s'.phase = .done ∧ out = s'.out) := by
  refine ⟨?_, ?_, ?_, ?_⟩
  · intro fuel s r st last r₂ st₂ hph h3 hlast
    simp only [step, hph, h3, hlast]
    norm_num
  · intro fuel s r st c₂ r₂ st₂ hph h3 hc₂ hnv
    cases c₂ with
    | value b => exact absurd rfl (hnv b)
    | command n =>
      simp only [step, hph, h3, hc₂]
      norm_num
    | index p =>
      simp only [step, hph, h3, hc₂]
      norm_num
  · intro fuel s s' hstep hdone
    rcases step_ok_inversion fuel s s' hstep with
      ⟨hph, rfl⟩ | ⟨r, st, hph, hre, rfl⟩ | ⟨d, r, st, hph, hre, rfl⟩ |
      ⟨r, st, hph, hre, rfl⟩ | ⟨r, st, last, r₂, st₂, hph, hre, hre₂, rfl⟩ |
      ⟨n, r, st, hph, hn1, hn3, hre, rfl⟩ |
      ⟨code, r, st, scratch, d, hph, hcmd, hre, hres, rfl⟩
    · exact Or.inl hph
    · exact absurd hdone (by simp)
    · exact absurd hdone (by simp)
    · exact absurd hdone (by simp)
    · exact Or.inr ⟨r, st, last, r₂, st₂, hre, hre₂, rfl⟩
    · exact Or.inl hdone
    · exact Or.inl hdone
  · intro fuel input out h
    exact run_ok_reaches fuel (initState input) out h

/-- Claim C6 witness: a streaming state whose next codes are `Command(3)`
then `Value(0x43)` steps to the `done` phase with 0x43 appended. -/
theorem command3_ends_stream_witness :
    step 5 (DState.mk ⟨0, 0, 9⟩ [3, 0, 0x4B, 0] (.value 0x42) 0x42 1
        [⟨0x42, .value 0x41⟩] [0x41, 0x42] .streaming) =
      some (.ok ⟨⟨0, 7, 9⟩, [], .value 0x42, 0x42, 1, [⟨0x42, .value 0x41⟩],
        [0x41, 0x42, 0x43], .done⟩) :=
  command3_ends_stream.1 5
    ⟨⟨0, 0, 9⟩, [3, 0, 0x4B, 0], .value 0x42, 0x42, 1,
      [⟨0x42, .value 0x41⟩], [0x41, 0x42], .streaming⟩
    ⟨0, 0, 9⟩ [0x4B, 0] 0x43 ⟨0, 7, 9⟩ [] rfl (by decide) (by decide)

/-- Claim C1 counterexample: on `c1Input` (`Command(1), Value(65),
Value(66), Command(1), Value(67)`) the state right after the second
segment's first literal has been processed (5 steps) is streaming with
`prev_scratch_len = 1`, not 0 — the reset did not clear the run length of
the previous segment. -/
theorem segment_psl_nonzero_counterexample :
    (stepsOk 100 5 (initState c1Input)).map
      (fun s => (s.phase, s.prev_scratch_len)) = some (.streaming, 1) ∧
    (1 : Nat) ≠ 0 :=
  ⟨by decide, by decide⟩

/-- Claim C1 (amended): `prev_scratch_len` is 0 at stream entry, and both
the reset transition (streaming to segmentStart) and the first-literal
transition (segmentStart to streaming) leave it unchanged — so a fresh
segment starts with the previous segment's last run length, not 0. -/
theorem segment_psl_carryover :
    (∀ input : List Nat, (initState input).prev_scratch_len = 0) ∧
    (∀ (fuel : Nat) (s s' : DState), s.phase = .streaming →
        step fuel s = some (.ok s') → s'.phase = .segmentStart →
        s'.prev_scratch_len = s.prev_scratch_len) ∧
    (∀ (fuel : Nat) (s s' : DState), s.phase = .segmentStart →
        step fuel s = some (.ok s') →
        s'.prev_scratch_len = s.prev_scratch_len) := by
  refine ⟨fun input => rfl, ?_, ?_⟩
  · intro fuel s s' hph hstep hph'
    rcases step_ok_inversion fuel s s' hstep with
      ⟨hd, rfl⟩ | ⟨r, st, hp, hre, rfl⟩ | ⟨d, r, st, hp, hre, rfl⟩ |
      ⟨r, st, hp, hre, rfl⟩ | ⟨r, st, last, r₂, st₂, hp, hre, hre₂, rfl⟩ |
      ⟨n, r, st, hp, hn1, hn3, hre, rfl⟩ |
      ⟨code, r, st, scratch, d, hp, hcmd, hre, hres, rfl⟩
    · rfl
    · exact absurd (hp ▸ hph) (by simp)
    · exact absurd (hp ▸ hph) (by simp)
    · rfl
    · exact absurd hph' (by simp)
    · exact absurd (hph ▸ hph') (by simp)
    · exact absurd (hph ▸ hph') (by simp)
  · intro fuel s s' hph hstep
    rcases step_ok_inversion fuel s s' hstep with
      ⟨hd, rfl⟩ | ⟨r, st, hp, hre, rfl⟩ | ⟨d, r, st, hp, hre, rfl⟩ |
      ⟨r, st, hp, hre, rfl⟩ | ⟨r, st, last, r₂, st₂, hp, hre, hre₂, rfl⟩ |
      ⟨n, r, st, hp, hn1, hn3, hre, rfl⟩ |
      ⟨code, r, st, scratch, d, hp, hcmd, hre, hres, rfl⟩
    · rfl
    · exact absurd (hp ▸ hph) (by simp)
    · rfl
    · exact absurd (hp ▸ hph) (by simp)
    · exact absurd (hp ▸ hph) (by simp)
    · exact absurd (hp ▸ hph) (by simp)
    · exact absurd (hp ▸ hph) (by simp)

/-- Claim C1 witness: a reset step from a streaming state with
`prev_scratch_len = 7` keeps it at 7 in the new segment. -/
theorem segment_psl_carryover_witness :
    (DState.mk ⟨0, 0, 9⟩ [] (.value 0x41) 0x41 7 [] [0x41]
        .segmentStart).prev_scratch_len =
      (DState.mk ⟨0, 0, 9⟩ [1, 0] (.value 0x41) 0x41 7 [] [0x41]
        .streaming).prev_scratch_len :=
  segment_psl_carryover.2.1 5
    ⟨⟨0, 0, 9⟩, [1, 0], .value 0x41, 0x41, 7, [], [0x41], .streaming⟩
    ⟨⟨0, 0, 9⟩, [], .value 0x41, 0x41, 7, [], [0x41], .segmentStart⟩
    rfl (by decide) rfl

/-- Claim C9 counterexample: on `c9Input` (start marker, one literal, then
`Index(5)` into an empty dictionary) the decode fails with the unclassified
slice panic (`indexOutOfBounds`), not with the classified
`Index to non-Value` panic (`corruptChain`). -/
theorem out_of_range_index_counterexample :
    decompress 100 c9Input = some (.error .indexOutOfBounds) ∧
    RunError.indexOutOfBounds ≠ RunError.corruptChain :=
  ⟨by decide, by decide⟩

/-- Claim C9 (amended): a non-KwK out-of-range index aborts resolution with
the unclassified out-of-bounds slice panic, not `corruptChain`; and on a
self-referential dictionary entry (reachable — see the C8 counterexample)
the chain loop never returns at any fuel, i.e. the source loops forever
rather than reporting an error. -/
theorem out_of_range_index_behavior :
    (∀ (dict : List DictionaryEntry) (prev : Code)
        (prev_data fuel p : Nat), dict.length < p →
        resolveCode dict prev prev_data (fuel + 1) (.index p) =
          some (.error .indexOutOfBounds)) ∧
    (∀ (fuel : Nat) (scratch : List Nat),
        chainLoop [⟨0x45, .index 0⟩] fuel (.index 0) scratch = none) := by
  constructor
  · intro dict prev prev_data fuel p hlt
    simp only [resolveCode]
    rw [if_neg (by omega)]
    rw [chainLoop]
    rw [List.getElem?_eq_none (by omega)]
  · intro fuel
    induction fuel with
    | zero => intro scratch; rfl
    | succ f ih =>
      intro scratch
      exact ih (0x45 :: scratch)

/-- Claim C9 witness: `Index(5)` into an empty dictionary is the slice
panic. -/
theorem out_of_range_index_behavior_witness :
    resolveCode [] (.value 0) 0 5 (.index 5) =
      some (.error .indexOutOfBounds) :=
  out_of_range_index_behavior.1 [] (.value 0) 0 4 5 (by decide)

/-- Claim C7 counterexample: decoding the example stream `Command(1),
Value(65), Value(66), Command(3), Value(67)` does perform a dictionary
insertion: after the third step the dictionary holds the entry
`{ value := 66, next := Value(65) }` — it is not empty. -/
theorem example_stream_insertion_counterexample :
    (stepsOk 100 3 (initState c7Input)).map (fun s => s.dictionary) =
      some [⟨0x42, .value 0x41⟩] ∧
    ([⟨0x42, .value 0x41⟩] : List DictionaryEntry) ≠ [] :=
  ⟨by decide, by decide⟩

/-- Claim C7 (amended): decoding the example stream returns exactly the
bytes 65 66 67 and reaches the `done` phase immediately after emitting 67,
with exactly one dictionary insertion having occurred
(`{ value := 66, next := Value(65) }`, inserted when `Value(66)` was
resolved). -/
theorem example_stream_decode :
    decompress 100 c7Input = some (.ok [0x41, 0x42, 0x43]) ∧
    (stepsOk 100 4 (initState c7Input)).map
        (fun s => (s.phase, s.dictionary, s.out)) =
      some (.done, [⟨0x42, .value 0x41⟩], [0x41, 0x42, 0x43]) :=
  ⟨by decide, by decide⟩

/-- Claim C8 (amended): in every reachable state, every dictionary entry's
`next` link is either a literal or an index no later than the entry's own
slot.  (Equality — a self-link — is possible: a KwK code whose insertion is
skipped leaves `prev` naming the still-absent next slot, and the following
insertion then occupies exactly that slot; see the C8 counterexample.) -/
theorem dictionary_entries_bounded (input : List Nat) (s : DState)
    (h : Reachable input s) :
    ∀ i e, s.dictionary[i]? = some e →
      (∃ b, e.next = Code.value b) ∨
        ∃ q, e.next = Code.index q ∧ q ≤ i := by
  have hwf := reaches_wf (initState input) s h
    ⟨fun i e he => absurd he (by simp [initState]), Or.inl ⟨0, rfl⟩⟩
  exact fun i e he => hwf.1 i e he

/-- Claim C8 witness: the single entry inserted while decoding the example
stream has a literal `next` link. -/
theorem dictionary_entries_bounded_witness :
    (∃ b, (DictionaryEntry.mk 0x42 (.value 0x41)).next = Code.value b) ∨
      ∃ q, (DictionaryEntry.mk 0x42 (.value 0x41)).next = Code.index q ∧
        q ≤ 0 :=
  dictionary_entries_bounded c7Input
    ⟨⟨3, 6, 9⟩, [0, 0x4B, 0], .value 0x42, 0x42, 1,
      [⟨0x42, .value 0x41⟩], [0x41, 0x42], .streaming⟩
    (stepsOk_reaches 100 3 _ _ (by decide)) 0 ⟨0x42, .value 0x41⟩ (by decide)

/-- a successful step from a state with empty output performs the same
transition from the same state with any accumulated output, appending its
emission: the output field is write-only in `step`. -/
theorem step_out_param {fuel : Nat} {r r' : Reader} {st st' : List Nat}
    {pv pv' : Code} {pd pd' psl psl' : Nat}
    {dic dic' : List DictionaryEntry} {ph ph' : Phase} {e : List Nat}
    (h : step fuel (DState.mk r st pv pd psl dic [] ph) =
         some (.ok (DState.mk r' st' pv' pd' psl' dic' e ph')))
    (o : List Nat) :
    step fuel (DState.mk r st pv pd psl dic o ph) =
      some (.ok (DState.mk r' st' pv' pd' psl' dic' (o ++ e) ph')) := by
  rcases step_ok_inversion fuel _ _ h with
    ⟨hph, hs⟩ | ⟨R, S, hph, hre, hs⟩ | ⟨d, R, S, hph, hre, hs⟩ |
    ⟨R, S, hph, hre, hs⟩ | ⟨R, S, last, R₂, S₂, hph, hre, hre₂, hs⟩ |
    ⟨n, R, S, hph, hn1, hn3, hre, hs⟩ |
    ⟨code, R, S, scratch, d, hph, hcmd, hre, hres, hs⟩
  · have hph' : ph = .done := hph
    subst hph'
    injection hs with h1 h2 h3 h4 h5 h6 h7 h8
    subst h1; subst h2; subst h3; subst h4; subst h5; subst h6; subst h7; subst h8
    simp only [step, List.append_nil]
  · have hph' : ph = .awaitStart := hph
    subst hph'
    have hre' : Reader.read r st = .ok (.command 1, R, S) := hre
    injection hs with h1 h2 h3 h4 h5 h6 h7 h8
    subst h1; subst h2; subst h3; subst h4; subst h5; subst h6; subst h7; subst h8
    simp only [step, hre', List.append_nil]
    norm_num
  · have hph' : ph = .segmentStart := hph
    subst hph'
    have hre' : Reader.read r st = .ok (.value d, R, S) := hre
    injection hs with h1 h2 h3 h4 h5 h6 h7 h8
    subst h1; subst h2; subst h3; subst h4; subst h5; subst h6; subst h7; subst h8
    simp only [step, hre', List.append_nil, List.nil_append]
  · have hph' : ph = .streaming := hph
    subst hph'
    have hre' : Reader.read r st = .ok (.command 1, R, S) := hre
    injection hs with h1 h2 h3 h4 h5 h6 h7 h8
    subst h1; subst h2; subst h3; subst h4; subst h5; subst h6; subst h7; subst h8
    simp only [step, hre', List.append_nil]
    norm_num
  · have hph' : ph = .streaming := hph
    subst hph'
    have hre' : Reader.read r st = .ok (.command 3, R, S) := hre
    have hre₂' : Reader.read R S = .ok (.value last, R₂, S₂) := hre₂
    injection hs with h1 h2 h3 h4 h5 h6 h7 h8
    subst h1; subst h2; subst h3; subst h4; subst h5; subst h6; subst h7; subst h8
    simp only [step, hre', hre₂', List.append_nil, List.nil_append]
    norm_num
  · have hph' : ph = .streaming := hph
    subst hph'
    have hre' : Reader.read r st = .ok (.command n, R, S) := hre
    injection hs with h1 h2 h3 h4 h5 h6 h7 h8
    subst h1; subst h2; subst h3; subst h4; subst h5; subst h6; subst h7; subst h8
    simp only [step, hre', List.append_nil]
    rw [if_neg hn1, if_neg hn3]
  · have hph' : ph = .streaming := hph
    subst hph'
    have hre' : Reader.read r st = .ok (code, R, S) := hre
    have hres' : resolveCode dic pv pd fuel code = some (.ok (scratch, d)) := hres
    cases code with
    | command n => exact absurd rfl (hcmd n)
    | value v =>
      injection hs with h1 h2 h3 h4 h5 h6 h7 h8
      subst h1; subst h2; subst h3; subst h4; subst h5; subst h6; subst h7; subst h8
      simp only [step, hre', hres', List.append_nil, List.nil_append]
    | index p =>
      injection hs with h1 h2 h3 h4 h5 h6 h7 h8
      subst h1; subst h2; subst h3; subst h4; subst h5; subst h6; subst h7; subst h8
      simp only [step, hre', hres', List.append_nil, List.nil_append]

set_option maxRecDepth 100000

/-- generated single-step facts of the `c8Input` trace: each is one
successful `step` between two explicitly written states, so the chain
below establishes reachability of the self-referential dictionary without
one monolithic evaluation. -/
theorem c8Step0 :
    step 200 (DState.mk ⟨0, 0, 9⟩ c8Input (.value 0) 0 0 [] [] .awaitStart) =
      some (.ok (DState.mk ⟨0, 0, 9⟩ (c8Input.drop 2) (.value 0) 0 0 [] [] .segmentStart)) := by
  decide

theorem c8Step1 :
    step 200 (DState.mk ⟨0, 0, 9⟩ (c8Input.drop 2) (.value 0) 0 0 [] [] .segmentStart) =
      some (.ok (DState.mk ⟨8, 7, 9⟩ (c8Input.drop 4) (.value 65) 65 0 [] [65] .streaming)) := by
  decide

theorem c8Step2 :
    step 200 (DState.mk ⟨8, 7, 9⟩ (c8Input.drop 4) (.value 65) 65 0 [] [] .streaming) =
      some (.ok (DState.mk ⟨9, 6, 9⟩ (c8Input.drop 5) (.index 0) 65 2 (pumpDict 1) [65, 65] .streaming)) := by
  decide

theorem c8Step3 :
    step 200 (DState.mk ⟨9, 6, 9⟩ (c8Input.drop 5) (.index 0) 65 2 (pumpDict 1) [] .streaming) =
      some (.ok (DState.mk ⟨10, 5, 9⟩ (c8Input.drop 6) (.index 1) 65 3 (pumpDict 2) [65, 65, 65] .streaming)) := by
  decide

theorem c8Step4 :
    step 200 (DState.mk ⟨10, 5, 9⟩ (c8Input.drop 6) (.index 1) 65 3 (pumpDict 2) [] .streaming) =
      some (.ok (DState.mk ⟨11, 4, 9⟩ (c8Input.drop 7) (.index 2) 65 4 (pumpDict 3) (List.replicate 4 65) .streaming)) := by
  decide

theorem c8Step5 :
    step 200 (DState.mk ⟨11, 4, 9⟩ (c8Input.drop 7) (.index 2) 65 4 (pumpDict 3) [] .streaming) =
      some (.ok (DState.mk ⟨4, 3, 9⟩ (c8Input.drop 8) (.index 3) 65 5 (pumpDict 4) (List.replicate 5 65) .streaming)) := by
  decide

theorem c8Step6 :
    step 200 (DState.mk ⟨4, 3, 9⟩ (c8Input.drop 8) (.index 3) 65 5 (pumpDict 4) [] .streaming) =
      some (.ok (DState.mk ⟨1, 2, 9⟩ (c8Input.drop 9) (.index 4) 65 6 (pumpDict 5) (List.replicate 6 65) .streaming)) := by
  decide

theorem c8Step7 :
    step 200 (DState.mk ⟨1, 2, 9⟩ (c8Input.drop 9) (.index 4) 65 6 (pumpDict 5) [] .streaming) =
      some (.ok (DState.mk ⟨0, 1, 9⟩ (c8Input.drop 10) (.index 5) 65 7 (pumpDict 6) (List.replicate 7 65) .streaming)) := by
  decide

theorem c8Step8 :
    step 200 (DState.mk ⟨0, 1, 9⟩ (c8Input.drop 10) (.index 5) 65 7 (pumpDict 6) [] .streaming) =
      some (.ok (DState.mk ⟨0, 0, 9⟩ (c8Input.drop 11) (.index 6) 65 8 (pumpDict 7) (List.replicate 8 65) .streaming)) := by
  decide

theorem c8Step9 :
    step 200 (DState.mk ⟨0, 0, 9⟩ (c8Input.drop 11) (.index 6) 65 8 (pumpDict 7) [] .streaming) =
      some (.ok (DState.mk ⟨16, 7, 9⟩ (c8Input.drop 13) (.index 7) 65 9 (pumpDict 8) (List.replicate 9 65) .streaming)) := by
  decide

theorem c8Step10 :
    step 200 (DState.mk ⟨16, 7, 9⟩ (c8Input.drop 13) (.index 7) 65 9 (pumpDict 8) [] .streaming) =
      some (.ok (DState.mk ⟨17, 6, 9⟩ (c8Input.drop 14) (.index 8) 65 10 (pumpDict 9) (List.replicate 10 65) .streaming)) := by
  decide

theorem c8Step11 :
    step 200 (DState.mk ⟨17, 6, 9⟩ (c8Input.drop 14) (.index 8) 65 10 (pumpDict 9) [] .streaming) =
      some (.ok (DState.mk ⟨18, 5, 9⟩ (c8Input.drop 15) (.index 9) 65 11 (pumpDict 10) (List.replicate 11 65) .streaming)) := by
  decide

theorem c8Step12 :
    step 200 (DState.mk ⟨18, 5, 9⟩ (c8Input.drop 15) (.index 9) 65 11 (pumpDict 10) [] .streaming) =
      some (.ok (DState.mk ⟨3, 4, 9⟩ (c8Input.drop 16) (.index 10) 65 12 (pumpDict 11) (List.replicate 12 65) .streaming)) := by
  decide

theorem c8Step13 :
    step 200 (DState.mk ⟨3, 4, 9⟩ (c8Input.drop 16) (.index 10) 65 12 (pumpDict 11) [] .streaming) =
      some (.ok (DState.mk ⟨4, 3, 9⟩ (c8Input.drop 17) (.index 11) 65 13 (pumpDict 12) (List.replicate 13 65) .streaming)) := by
  decide

theorem c8Step14 :
    step 200 (DState.mk ⟨4, 3, 9⟩ (c8Input.drop 17) (.index 11) 65 13 (pumpDict 12) [] .streaming) =
      some (.ok (DState.mk ⟨1, 2, 9⟩ (c8Input.drop 18) (.index 12) 65 14 (pumpDict 13) (List.replicate 14 65) .streaming)) := by
  decide

theorem c8Step15 :
    step 200 (DState.mk ⟨1, 2, 9⟩ (c8Input.drop 18) (.index 12) 65 14 (pumpDict 13) [] .streaming) =
      some (.ok (DState.mk ⟨0, 1, 9⟩ (c8Input.drop 19) (.index 13) 65 15 (pumpDict 14) (List.replicate 15 65) .streaming)) := by
  decide

theorem c8Step16 :
    step 200 (DState.mk ⟨0, 1, 9⟩ (c8Input.drop 19) (.index 13) 65 15 (pumpDict 14) [] .streaming) =
      some (.ok (DState.mk ⟨0, 0, 9⟩ (c8Input.drop 20) (.index 14) 65 16 (pumpDict 15) (List.replicate 16 65) .streaming)) := by
  decide

theorem c8Step17 :
    step 200 (DState.mk ⟨0, 0, 9⟩ (c8Input.drop 20) (.index 14) 65 16 (pumpDict 15) [] .streaming) =
      some (.ok (DState.mk ⟨24, 7, 9⟩ (c8Input.drop 22) (.index 15) 65 17 (pumpDict 16) (List.replicate 17 65) .streaming)) := by
  decide

theorem c8Step18 :
    step 200 (DState.mk ⟨24, 7, 9⟩ (c8Input.drop 22) (.index 15) 65 17 (pumpDict 16) [] .streaming) =
      some (.ok (DState.mk ⟨25, 6, 9⟩ (c8Input.drop 23) (.index 16) 65 18 (pumpDict 17) (List.replicate 18 65) .streaming)) := by
  decide

theorem c8Step19 :
    step 200 (DState.mk ⟨25, 6, 9⟩ (c8Input.drop 23) (.index 16) 65 18 (pumpDict 17) [] .streaming) =
      some (.ok (DState.mk ⟨26, 5, 9⟩ (c8Input.drop 24) (.index 17) 65 19 (pumpDict 18) (List.replicate 19 65) .streaming)) := by
  decide

theorem c8Step20 :
    step 200 (DState.mk ⟨26, 5, 9⟩ (c8Input.drop 24) (.index 17) 65 19 (pumpDict 18) [] .streaming) =
      some (.ok (DState.mk ⟨11, 4, 9⟩ (c8Input.drop 25) (.index 18) 65 20 (pumpDict 19) (List.replicate 20 65) .streaming)) := by
  decide

theorem c8Step21 :
    step 200 (DState.mk ⟨11, 4, 9⟩ (c8Input.drop 25) (.index 18) 65 20 (pumpDict 19) [] .streaming) =
      some (.ok (DState.mk ⟨4, 3, 9⟩ (c8Input.drop 26) (.index 19) 65 21 (pumpDict 20) (List.replicate 21 65) .streaming)) := by
  decide

theorem c8Step22 :
    step 200 (DState.mk ⟨4, 3, 9⟩ (c8Input.drop 26) (.index 19) 65 21 (pumpDict 20) [] .streaming) =
      some (.ok (DState.mk ⟨1, 2, 9⟩ (c8Input.drop 27) (.index 20) 65 22 (pumpDict 21) (List.replicate 22 65) .streaming)) := by
  decide

theorem c8Step23 :
    step 200 (DState.mk ⟨1, 2, 9⟩ (c8Input.drop 27) (.index 20) 65 22 (pumpDict 21) [] .streaming) =
      some (.ok (DState.mk ⟨0, 1, 9⟩ (c8Input.drop 28) (.index 21) 65 23 (pumpDict 22) (List.replicate 23 65) .streaming)) := by
  decide

theorem c8Step24 :
    step 200 (DState.mk ⟨0, 1, 9⟩ (c8Input.drop 28) (.index 21) 65 23 (pumpDict 22) [] .streaming) =
      some (.ok (DState.mk ⟨0, 0, 9⟩ (c8Input.drop 29) (.index 22) 65 24 (pumpDict 23) (List.replicate 24 65) .streaming)) := by
  decide

theorem c8Step25 :
    step 200 (DState.mk ⟨0, 0, 9⟩ (c8Input.drop 29) (.index 22) 65 24 (pumpDict 23) [] .streaming) =
      some (.ok (DState.mk ⟨32, 7, 9⟩ (c8Input.drop 31) (.index 23) 65 25 (pumpDict 24) (List.replicate 25 65) .streaming)) := by
  decide

theorem c8Step26 :
    step 200 (DState.mk ⟨32, 7, 9⟩ (c8Input.drop 31) (.index 23) 65 25 (pumpDict 24) [] .streaming) =
      some (.ok (DState.mk ⟨33, 6, 9⟩ (c8Input.drop 32) (.index 24) 65 26 (pumpDict 25) (List.replicate 26 65) .streaming)) := by
  decide

theorem c8Step27 :
    step 200 (DState.mk ⟨33, 6, 9⟩ (c8Input.drop 32) (.index 24) 65 26 (pumpDict 25) [] .streaming) =
      some (.ok (DState.mk ⟨2, 5, 9⟩ (c8Input.drop 33) (.index 25) 65 27 (pumpDict 26) (List.replicate 27 65) .streaming)) := by
  decide

theorem c8Step28 :
    step 200 (DState.mk ⟨2, 5, 9⟩ (c8Input.drop 33) (.index 25) 65 27 (pumpDict 26) [] .streaming) =
      some (.ok (DState.mk ⟨3, 4, 9⟩ (c8Input.drop 34) (.index 26) 65 28 (pumpDict 27) (List.replicate 28 65) .streaming)) := by
  decide

theorem c8Step29 :
    step 200 (DState.mk ⟨3, 4, 9⟩ (c8Input.drop 34) (.index 26) 65 28 (pumpDict 27) [] .streaming) =
      some (.ok (DState.mk ⟨4, 3, 9⟩ (c8Input.drop 35) (.index 27) 65 29 (pumpDict 28) (List.replicate 29 65) .streaming)) := by
  decide

theorem c8Step30 :
    step 200 (DState.mk ⟨4, 3, 9⟩ (c8Input.drop 35) (.index 27) 65 29 (pumpDict 28) [] .streaming) =
      some (.ok (DState.mk ⟨1, 2, 9⟩ (c8Input.drop 36) (.index 28) 65 30 (pumpDict 29) (List.replicate 30 65) .streaming)) := by
  decide

theorem c8Step31 :
    step 200 (DState.mk ⟨1, 2, 9⟩ (c8Input.drop 36) (.index 28) 65 30 (pumpDict 29) [] .streaming) =
      some (.ok (DState.mk ⟨0, 1, 9⟩ (c8Input.drop 37) (.index 29) 65 31 (pumpDict 30) (List.replicate 31 65) .streaming)) := by
  decide

theorem c8Step32 :
    step 200 (DState.mk ⟨0, 1, 9⟩ (c8Input.drop 37) (.index 29) 65 31 (pumpDict 30) [] .streaming) =
      some (.ok (DState.mk ⟨0, 0, 9⟩ (c8Input.drop 38) (.index 30) 65 32 (pumpDict 31) (List.replicate 32 65) .streaming)) := by
  decide

theorem c8Step33 :
    step 200 (DState.mk ⟨0, 0, 9⟩ (c8Input.drop 38) (.index 30) 65 32 (pumpDict 31) [] .streaming) =
      some (.ok (DState.mk ⟨40, 7, 9⟩ (c8Input.drop 40) (.index 31) 65 33 (pumpDict 32) (List.replicate 33 65) .streaming)) := by
  decide

theorem c8Step34 :
    step 200 (DState.mk ⟨40, 7, 9⟩ (c8Input.drop 40) (.index 31) 65 33 (pumpDict 32) [] .streaming) =
      some (.ok (DState.mk ⟨41, 6, 9⟩ (c8Input.drop 41) (.index 32) 65 34 (pumpDict 33) (List.replicate 34 65) .streaming)) := by
  decide

theorem c8Step35 :
    step 200 (DState.mk ⟨41, 6, 9⟩ (c8Input.drop 41) (.index 32) 65 34 (pumpDict 33) [] .streaming) =
      some (.ok (DState.mk ⟨10, 5, 9⟩ (c8Input.drop 42) (.index 33) 65 35 (pumpDict 34) (List.replicate 35 65) .streaming)) := by
  decide

theorem c8Step36 :
    step 200 (DState.mk ⟨10, 5, 9⟩ (c8Input.drop 42) (.index 33) 65 35 (pumpDict 34) [] .streaming) =
      some (.ok (DState.mk ⟨11, 4, 9⟩ (c8Input.drop 43) (.index 34) 65 36 (pumpDict 35) (List.replicate 36 65) .streaming)) := by
  decide

theorem c8Step37 :
    step 200 (DState.mk ⟨11, 4, 9⟩ (c8Input.drop 43) (.index 34) 65 36 (pumpDict 35) [] .streaming) =
      some (.ok (DState.mk ⟨4, 3, 9⟩ (c8Input.drop 44) (.index 35) 65 37 (pumpDict 36) (List.replicate 37 65) .streaming)) := by
  decide

theorem c8Step38 :
    step 200 (DState.mk ⟨4, 3, 9⟩ (c8Input.drop 44) (.index 35) 65 37 (pumpDict 36) [] .streaming) =
      some (.ok (DState.mk ⟨1, 2, 9⟩ (c8Input.drop 45) (.index 36) 65 38 (pumpDict 37) (List.replicate 38 65) .streaming)) := by
  decide

theorem c8Step39 :
    step 200 (DState.mk ⟨1, 2, 9⟩ (c8Input.drop 45) (.index 36) 65 38 (pumpDict 37) [] .streaming) =
      some (.ok (DState.mk ⟨0, 1, 9⟩ (c8Input.drop 46) (.index 37) 65 39 (pumpDict 38) (List.replicate 39 65) .streaming)) := by
  decide

theorem c8Step40 :
    step 200 (DState.mk ⟨0, 1, 9⟩ (c8Input.drop 46) (.index 37) 65 39 (pumpDict 38) [] .streaming) =
      some (.ok (DState.mk ⟨0, 0, 9⟩ (c8Input.drop 47) (.index 38) 65 40 (pumpDict 39) (List.replicate 40 65) .streaming)) := by
  decide

theorem c8Step41 :
    step 200 (DState.mk ⟨0, 0, 9⟩ (c8Input.drop 47) (.index 38) 65 40 (pumpDict 39) [] .streaming) =
      some (.ok (DState.mk ⟨48, 7, 9⟩ (c8Input.drop 49) (.index 39) 65 41 (pumpDict 40) (List.replicate 41 65) .streaming)) := by
  decide

theorem c8Step42 :
    step 200 (DState.mk ⟨48, 7, 9⟩ (c8Input.drop 49) (.index 39) 65 41 (pumpDict 40) [] .streaming) =
      some (.ok (DState.mk ⟨49, 6, 9⟩ (c8Input.drop 50) (.index 40) 65 42 (pumpDict 41) (List.replicate 42 65) .streaming)) := by
  decide

theorem c8Step43 :
    step 200 (DState.mk ⟨49, 6, 9⟩ (c8Input.drop 50) (.index 40) 65 42 (pumpDict 41) [] .streaming) =
      some (.ok (DState.mk ⟨18, 5, 9⟩ (c8Input.drop 51) (.index 41) 65 43 (pumpDict 42) (List.replicate 43 65) .streaming)) := by
  decide

theorem c8Step44 :
    step 200 (DState.mk ⟨18, 5, 9⟩ (c8Input.drop 51) (.index 41) 65 43 (pumpDict 42) [] .streaming) =
      some (.ok (DState.mk ⟨3, 4, 9⟩ (c8Input.drop 52) (.index 42) 65 44 (pumpDict 43) (List.replicate 44 65) .streaming)) := by
  decide

theorem c8Step45 :
    step 200 (DState.mk ⟨3, 4, 9⟩ (c8Input.drop 52) (.index 42) 65 44 (pumpDict 43) [] .streaming) =
      some (.ok (DState.mk ⟨4, 3, 9⟩ (c8Input.drop 53) (.index 43) 65 45 (pumpDict 44) (List.replicate 45 65) .streaming)) := by
  decide

theorem c8Step46 :
    step 200 (DState.mk ⟨4, 3, 9⟩ (c8Input.drop 53) (.index 43) 65 45 (pumpDict 44) [] .streaming) =
      some (.ok (DState.mk ⟨1, 2, 9⟩ (c8Input.drop 54) (.index 44) 65 46 (pumpDict 45) (List.replicate 46 65) .streaming)) := by
  decide

theorem c8Step47 :
    step 200 (DState.mk ⟨1, 2, 9⟩ (c8Input.drop 54) (.index 44) 65 46 (pumpDict 45) [] .streaming) =
      some (.ok (DState.mk ⟨0, 1, 9⟩ (c8Input.drop 55) (.index 45) 65 47 (pumpDict 46) (List.replicate 47 65) .streaming)) := by
  decide

theorem c8Step48 :
    step 200 (DState.mk ⟨0, 1, 9⟩ (c8Input.drop 55) (.index 45) 65 47 (pumpDict 46) [] .streaming) =
      some (.ok (DState.mk ⟨0, 0, 9⟩ (c8Input.drop 56) (.index 46) 65 48 (pumpDict 47) (List.replicate 48 65) .streaming)) := by
  decide

theorem c8Step49 :
    step 200 (DState.mk ⟨0, 0, 9⟩ (c8Input.drop 56) (.index 46) 65 48 (pumpDict 47) [] .streaming) =
      some (.ok (DState.mk ⟨56, 7, 9⟩ (c8Input.drop 58) (.index 47) 65 49 (pumpDict 48) (List.replicate 49 65) .streaming)) := by
  decide

theorem c8Step50 :
    step 200 (DState.mk ⟨56, 7, 9⟩ (c8Input.drop 58) (.index 47) 65 49 (pumpDict 48) [] .streaming) =
      some (.ok (DState.mk ⟨57, 6, 9⟩ (c8Input.drop 59) (.index 48) 65 50 (pumpDict 49) (List.replicate 50 65) .streaming)) := by
  decide

theorem c8Step51 :
    step 200 (DState.mk ⟨57, 6, 9⟩ (c8Input.drop 59) (.index 48) 65 50 (pumpDict 49) [] .streaming) =
      some (.ok (DState.mk ⟨26, 5, 9⟩ (c8Input.drop 60) (.index 49) 65 51 (pumpDict 50) (List.replicate 51 65) .streaming)) := by
  decide

theorem c8Step52 :
    step 200 (DState.mk ⟨26, 5, 9⟩ (c8Input.drop 60) (.index 49) 65 51 (pumpDict 50) [] .streaming) =
      some (.ok (DState.mk ⟨11, 4, 9⟩ (c8Input.drop 61) (.index 50) 65 52 (pumpDict 51) (List.replicate 52 65) .streaming)) := by
  decide

theorem c8Step53 :
    step 200 (DState.mk ⟨11, 4, 9⟩ (c8Input.drop 61) (.index 50) 65 52 (pumpDict 51) [] .streaming) =
      some (.ok (DState.mk ⟨4, 3, 9⟩ (c8Input.drop 62) (.index 51) 65 53 (pumpDict 52) (List.replicate 53 65) .streaming)) := by
  decide

theorem c8Step54 :
    step 200 (DState.mk ⟨4, 3, 9⟩ (c8Input.drop 62) (.index 51) 65 53 (pumpDict 52) [] .streaming) =
      some (.ok (DState.mk ⟨1, 2, 9⟩ (c8Input.drop 63) (.index 52) 65 54 (pumpDict 53) (List.replicate 54 65) .streaming)) := by
  decide

theorem c8Step55 :
    step 200 (DState.mk ⟨1, 2, 9⟩ (c8Input.drop 63) (.index 52) 65 54 (pumpDict 53) [] .streaming) =
      some (.ok (DState.mk ⟨0, 1, 9⟩ (c8Input.drop 64) (.index 53) 65 55 (pumpDict 54) (List.replicate 55 65) .streaming)) := by
  decide

theorem c8Step56 :
    step 200 (DState.mk ⟨0, 1, 9⟩ (c8Input.drop 64) (.index 53) 65 55 (pumpDict 54) [] .streaming) =
      some (.ok (DState.mk ⟨0, 0, 9⟩ (c8Input.drop 65) (.index 54) 65 56 (pumpDict 55) (List.replicate 56 65) .streaming)) := by
  decide

theorem c8Step57 :
    step 200 (DState.mk ⟨0, 0, 9⟩ (c8Input.drop 65) (.index 54) 65 56 (pumpDict 55) [] .streaming) =
      some (.ok (DState.mk ⟨64, 7, 9⟩ (c8Input.drop 67) (.index 55) 65 57 (pumpDict 56) (List.replicate 57 65) .streaming)) := by
  decide

theorem c8Step58 :
    step 200 (DState.mk ⟨64, 7, 9⟩ (c8Input.drop 67) (.index 55) 65 57 (pumpDict 56) [] .streaming) =
      some (.ok (DState.mk ⟨1, 6, 9⟩ (c8Input.drop 68) (.index 56) 65 58 (pumpDict 57) (List.replicate 58 65) .streaming)) := by
  decide

theorem c8Step59 :
    step 200 (DState.mk ⟨1, 6, 9⟩ (c8Input.drop 68) (.index 56) 65 58 (pumpDict 57) [] .streaming) =
      some (.ok (DState.mk ⟨2, 5, 9⟩ (c8Input.drop 69) (.index 57) 65 59 (pumpDict 58) (List.replicate 59 65) .streaming)) := by
  decide

theorem c8Step60 :
    step 200 (DState.mk ⟨2, 5, 9⟩ (c8Input.drop 69) (.index 57) 65 59 (pumpDict 58) [] .streaming) =
      some (.ok (DState.mk ⟨3, 4, 9⟩ (c8Input.drop 70) (.index 58) 65 60 (pumpDict 59) (List.replicate 60 65) .streaming)) := by
  decide

theorem c8Step61 :
    step 200 (DState.mk ⟨3, 4, 9⟩ (c8Input.drop 70) (.index 58) 65 60 (pumpDict 59) [] .streaming) =
      some (.ok (DState.mk ⟨4, 3, 9⟩ (c8Input.drop 71) (.index 59) 65 61 (pumpDict 60) (List.replicate 61 65) .streaming)) := by
  decide

theorem c8Step62 :
    step 200 (DState.mk ⟨4, 3, 9⟩ (c8Input.drop 71) (.index 59) 65 61 (pumpDict 60) [] .streaming) =
      some (.ok (DState.mk ⟨1, 2, 9⟩ (c8Input.drop 72) (.index 60) 65 62 (pumpDict 61) (List.replicate 62 65) .streaming)) := by
  decide

theorem c8Step63 :
    step 200 (DState.mk ⟨1, 2, 9⟩ (c8Input.drop 72) (.index 60) 65 62 (pumpDict 61) [] .streaming) =
      some (.ok (DState.mk ⟨0, 1, 9⟩ (c8Input.drop 73) (.index 61) 65 63 (pumpDict 62) (List.replicate 63 65) .streaming)) := by
  decide

theorem c8Step64 :
    step 200 (DState.mk ⟨0, 1, 9⟩ (c8Input.drop 73) (.index 61) 65 63 (pumpDict 62) [] .streaming) =
      some (.ok (DState.mk ⟨0, 0, 9⟩ (c8Input.drop 74) (.index 62) 65 64 (pumpDict 63) (List.replicate 64 65) .streaming)) := by
  decide

theorem c8Step65 :
    step 200 (DState.mk ⟨0, 0, 9⟩ (c8Input.drop 74) (.index 62) 65 64 (pumpDict 63) [] .streaming) =
      some (.ok (DState.mk ⟨72, 7, 9⟩ (c8Input.drop 76) (.index 63) 65 65 (pumpDict 64) (List.replicate 65 65) .streaming)) := by
  decide

theorem c8Step66 :
    step 200 (DState.mk ⟨72, 7, 9⟩ (c8Input.drop 76) (.index 63) 65 65 (pumpDict 64) [] .streaming) =
      some (.ok (DState.mk ⟨9, 6, 9⟩ (c8Input.drop 77) (.index 64) 65 66 (pumpDict 65) (List.replicate 66 65) .streaming)) := by
  decide

theorem c8Step67 :
    step 200 (DState.mk ⟨9, 6, 9⟩ (c8Input.drop 77) (.index 64) 65 66 (pumpDict 65) [] .streaming) =
      some (.ok (DState.mk ⟨10, 5, 9⟩ (c8Input.drop 78) (.index 65) 65 67 (pumpDict 66) (List.replicate 67 65) .streaming)) := by
  decide

theorem c8Step68 :
    step 200 (DState.mk ⟨10, 5, 9⟩ (c8Input.drop 78) (.index 65) 65 67 (pumpDict 66) [] .streaming) =
      some (.ok (DState.mk ⟨11, 4, 9⟩ (c8Input.drop 79) (.index 66) 65 68 (pumpDict 67) (List.replicate 68 65) .streaming)) := by
  decide

theorem c8Step69 :
    step 200 (DState.mk ⟨11, 4, 9⟩ (c8Input.drop 79) (.index 66) 65 68 (pumpDict 67) [] .streaming) =
      some (.ok (DState.mk ⟨4, 3, 9⟩ (c8Input.drop 80) (.index 67) 65 69 (pumpDict 68) (List.replicate 69 65) .streaming)) := by
  decide

theorem c8Step70 :
    step 200 (DState.mk ⟨4, 3, 9⟩ (c8Input.drop 80) (.index 67) 65 69 (pumpDict 68) [] .streaming) =
      some (.ok (DState.mk ⟨1, 2, 9⟩ (c8Input.drop 81) (.index 68) 65 70 (pumpDict 69) (List.replicate 70 65) .streaming)) := by
  decide

theorem c8Step71 :
    step 200 (DState.mk ⟨1, 2, 9⟩ (c8Input.drop 81) (.index 68) 65 70 (pumpDict 69) [] .streaming) =
      some (.ok (DState.mk ⟨0, 1, 9⟩ (c8Input.drop 82) (.index 69) 65 71 (pumpDict 70) (List.replicate 71 65) .streaming)) := by
  decide

theorem c8Step72 :
    step 200 (DState.mk ⟨0, 1, 9⟩ (c8Input.drop 82) (.index 69) 65 71 (pumpDict 70) [] .streaming) =
      some (.ok (DState.mk ⟨0, 0, 9⟩ (c8Input.drop 83) (.index 70) 65 72 (pumpDict 71) (List.replicate 72 65) .streaming)) := by
  decide

theorem c8Step73 :
    step 200 (DState.mk ⟨0, 0, 9⟩ (c8Input.drop 83) (.index 70) 65 72 (pumpDict 71) [] .streaming) =
      some (.ok (DState.mk ⟨80, 7, 9⟩ (c8Input.drop 85) (.index 71) 65 73 (pumpDict 72) (List.replicate 73 65) .streaming)) := by
  decide

theorem c8Step74 :
    step 200 (DState.mk ⟨80, 7, 9⟩ (c8Input.drop 85) (.index 71) 65 73 (pumpDict 72) [] .streaming) =
      some (.ok (DState.mk ⟨17, 6, 9⟩ (c8Input.drop 86) (.index 72) 65 74 (pumpDict 73) (List.replicate 74 65) .streaming)) := by
  decide

theorem c8Step75 :
    step 200 (DState.mk ⟨17, 6, 9⟩ (c8Input.drop 86) (.index 72) 65 74 (pumpDict 73) [] .streaming) =
      some (.ok (DState.mk ⟨18, 5, 9⟩ (c8Input.drop 87) (.index 73) 65 75 (pumpDict 74) (List.replicate 75 65) .streaming)) := by
  decide

theorem c8Step76 :
    step 200 (DState.mk ⟨18, 5, 9⟩ (c8Input.drop 87) (.index 73) 65 75 (pumpDict 74) [] .streaming) =
      some (.ok (DState.mk ⟨3, 4, 9⟩ (c8Input.drop 88) (.index 74) 65 76 (pumpDict 75) (List.replicate 76 65) .streaming)) := by
  decide

theorem c8Step77 :
    step 200 (DState.mk ⟨3, 4, 9⟩ (c8Input.drop 88) (.index 74) 65 76 (pumpDict 75) [] .streaming) =
      some (.ok (DState.mk ⟨4, 3, 9⟩ (c8Input.drop 89) (.index 75) 65 77 (pumpDict 76) (List.replicate 77 65) .streaming)) := by
  decide

theorem c8Step78 :
    step 200 (DState.mk ⟨4, 3, 9⟩ (c8Input.drop 89) (.index 75) 65 77 (pumpDict 76) [] .streaming) =
      some (.ok (DState.mk ⟨1, 2, 9⟩ (c8Input.drop 90) (.index 76) 65 78 (pumpDict 77) (List.replicate 78 65) .streaming)) := by
  decide

theorem c8Step79 :
    step 200 (DState.mk ⟨1, 2, 9⟩ (c8Input.drop 90) (.index 76) 65 78 (pumpDict 77) [] .streaming) =
      some (.ok (DState.mk ⟨0, 1, 9⟩ (c8Input.drop 91) (.index 77) 65 79 (pumpDict 78) (List.replicate 79 65) .streaming)) := by
  decide

theorem c8Step80 :
    step 200 (DState.mk ⟨0, 1, 9⟩ (c8Input.drop 91) (.index 77) 65 79 (pumpDict 78) [] .streaming) =
      some (.ok (DState.mk ⟨0, 0, 9⟩ (c8Input.drop 92) (.index 78) 65 80 (pumpDict 79) (List.replicate 80 65) .streaming)) := by
  decide

theorem c8Step81 :
    step 200 (DState.mk ⟨0, 0, 9⟩ (c8Input.drop 92) (.index 78) 65 80 (pumpDict 79) [] .streaming) =
      some (.ok (DState.mk ⟨88, 7, 9⟩ (c8Input.drop 94) (.index 79) 65 81 (pumpDict 80) (List.replicate 81 65) .streaming)) := by
  decide

theorem c8Step82 :
    step 200 (DState.mk ⟨88, 7, 9⟩ (c8Input.drop 94) (.index 79) 65 81 (pumpDict 80) [] .streaming) =
      some (.ok (DState.mk ⟨25, 6, 9⟩ (c8Input.drop 95) (.index 80) 65 82 (pumpDict 81) (List.replicate 82 65) .streaming)) := by
  decide

theorem c8Step83 :
    step 200 (DState.mk ⟨25, 6, 9⟩ (c8Input.drop 95) (.index 80) 65 82 (pumpDict 81) [] .streaming) =
      some (.ok (DState.mk ⟨26, 5, 9⟩ (c8Input.drop 96) (.index 81) 65 83 (pumpDict 82) (List.replicate 83 65) .streaming)) := by
  decide

theorem c8Step84 :
    step 200 (DState.mk ⟨26, 5, 9⟩ (c8Input.drop 96) (.index 81) 65 83 (pumpDict 82) [] .streaming) =
      some (.ok (DState.mk ⟨11, 4, 9⟩ (c8Input.drop 97) (.index 82) 65 84 (pumpDict 83) (List.replicate 84 65) .streaming)) := by
  decide

theorem c8Step85 :
    step 200 (DState.mk ⟨11, 4, 9⟩ (c8Input.drop 97) (.index 82) 65 84 (pumpDict 83) [] .streaming) =
      some (.ok (DState.mk ⟨4, 3, 9⟩ (c8Input.drop 98) (.index 83) 65 85 (pumpDict 84) (List.replicate 85 65) .streaming)) := by
  decide

theorem c8Step86 :
    step 200 (DState.mk ⟨4, 3, 9⟩ (c8Input.drop 98) (.index 83) 65 85 (pumpDict 84) [] .streaming) =
      some (.ok (DState.mk ⟨1, 2, 9⟩ (c8Input.drop 99) (.index 84) 65 86 (pumpDict 85) (List.replicate 86 65) .streaming)) := by
  decide

theorem c8Step87 :
    step 200 (DState.mk ⟨1, 2, 9⟩ (c8Input.drop 99) (.index 84) 65 86 (pumpDict 85) [] .streaming) =
      some (.ok (DState.mk ⟨0, 1, 9⟩ (c8Input.drop 100) (.index 85) 65 87 (pumpDict 86) (List.replicate 87 65) .streaming)) := by
  decide

theorem c8Step88 :
    step 200 (DState.mk ⟨0, 1, 9⟩ (c8Input.drop 100) (.index 85) 65 87 (pumpDict 86) [] .streaming) =
      some (.ok (DState.mk ⟨0, 0, 9⟩ (c8Input.drop 101) (.index 86) 65 88 (pumpDict 87) (List.replicate 88 65) .streaming)) := by
  decide

theorem c8Step89 :
    step 200 (DState.mk ⟨0, 0, 9⟩ (c8Input.drop 101) (.index 86) 65 88 (pumpDict 87) [] .streaming) =
      some (.ok (DState.mk ⟨96, 7, 9⟩ (c8Input.drop 103) (.index 87) 65 89 (pumpDict 88) (List.replicate 89 65) .streaming)) := by
  decide

theorem c8Step90 :
    step 200 (DState.mk ⟨96, 7, 9⟩ (c8Input.drop 103) (.index 87) 65 89 (pumpDict 88) [] .streaming) =
      some (.ok (DState.mk ⟨33, 6, 9⟩ (c8Input.drop 104) (.index 88) 65 90 (pumpDict 89) (List.replicate 90 65) .streaming)) := by
  decide

theorem c8Step91 :
    step 200 (DState.mk ⟨33, 6, 9⟩ (c8Input.drop 104) (.index 88) 65 90 (pumpDict 89) [] .streaming) =
      some (.ok (DState.mk ⟨2, 5, 9⟩ (c8Input.drop 105) (.index 89) 65 91 (pumpDict 90) (List.replicate 91 65) .streaming)) := by
  decide

theorem c8Step92 :
    step 200 (DState.mk ⟨2, 5, 9⟩ (c8Input.drop 105) (.index 89) 65 91 (pumpDict 90) [] .streaming) =
      some (.ok (DState.mk ⟨3, 4, 9⟩ (c8Input.drop 106) (.index 90) 65 92 (pumpDict 91) (List.replicate 92 65) .streaming)) := by
  decide

theorem c8Step93 :
    step 200 (DState.mk ⟨3, 4, 9⟩ (c8Input.drop 106) (.index 90) 65 92 (pumpDict 91) [] .streaming) =
      some (.ok (DState.mk ⟨4, 3, 9⟩ (c8Input.drop 107) (.index 91) 65 93 (pumpDict 92) (List.replicate 93 65) .streaming)) := by
  decide

theorem c8Step94 :
    step 200 (DState.mk ⟨4, 3, 9⟩ (c8Input.drop 107) (.index 91) 65 93 (pumpDict 92) [] .streaming) =
      some (.ok (DState.mk ⟨1, 2, 9⟩ (c8Input.drop 108) (.index 92) 65 94 (pumpDict 93) (List.replicate 94 65) .streaming)) := by
  decide

theorem c8Step95 :
    step 200 (DState.mk ⟨1, 2, 9⟩ (c8Input.drop 108) (.index 92) 65 94 (pumpDict 93) [] .streaming) =
      some (.ok (DState.mk ⟨0, 1, 9⟩ (c8Input.drop 109) (.index 93) 65 95 (pumpDict 94) (List.replicate 95 65) .streaming)) := by
  decide

theorem c8Step96 :
    step 200 (DState.mk ⟨0, 1, 9⟩ (c8Input.drop 109) (.index 93) 65 95 (pumpDict 94) [] .streaming) =
      some (.ok (DState.mk ⟨0, 0, 9⟩ (c8Input.drop 110) (.index 94) 65 96 (pumpDict 95) (List.replicate 96 65) .streaming)) := by
  decide

theorem c8Step97 :
    step 200 (DState.mk ⟨0, 0, 9⟩ (c8Input.drop 110) (.index 94) 65 96 (pumpDict 95) [] .streaming) =
      some (.ok (DState.mk ⟨104, 7, 9⟩ (c8Input.drop 112) (.index 95) 65 97 (pumpDict 96) (List.replicate 97 65) .streaming)) := by
  decide

theorem c8Step98 :
    step 200 (DState.mk ⟨104, 7, 9⟩ (c8Input.drop 112) (.index 95) 65 97 (pumpDict 96) [] .streaming) =
      some (.ok (DState.mk ⟨41, 6, 9⟩ (c8Input.drop 113) (.index 96) 65 98 (pumpDict 97) (List.replicate 98 65) .streaming)) := by
  decide

theorem c8Step99 :
    step 200 (DState.mk ⟨41, 6, 9⟩ (c8Input.drop 113) (.index 96) 65 98 (pumpDict 97) [] .streaming) =
      some (.ok (DState.mk ⟨10, 5, 9⟩ (c8Input.drop 114) (.index 97) 65 99 (pumpDict 98) (List.replicate 99 65) .streaming)) := by
  decide

theorem c8Step100 :
    step 200 (DState.mk ⟨10, 5, 9⟩ (c8Input.drop 114) (.index 97) 65 99 (pumpDict 98) [] .streaming) =
      some (.ok (DState.mk ⟨11, 4, 9⟩ (c8Input.drop 115) (.index 98) 65 100 (pumpDict 99) (List.replicate 100 65) .streaming)) := by
  decide

theorem c8Step101 :
    step 200 (DState.mk ⟨11, 4, 9⟩ (c8Input.drop 115) (.index 98) 65 100 (pumpDict 99) [] .streaming) =
      some (.ok (DState.mk ⟨4, 3, 9⟩ (c8Input.drop 116) (.index 99) 65 101 (pumpDict 100) (List.replicate 101 65) .streaming)) := by
  decide

theorem c8Step102 :
    step 200 (DState.mk ⟨4, 3, 9⟩ (c8Input.drop 116) (.index 99) 65 101 (pumpDict 100) [] .streaming) =
      some (.ok (DState.mk ⟨1, 2, 9⟩ (c8Input.drop 117) (.index 100) 65 102 (pumpDict 101) (List.replicate 102 65) .streaming)) := by
  decide

theorem c8Step103 :
    step 200 (DState.mk ⟨1, 2, 9⟩ (c8Input.drop 117) (.index 100) 65 102 (pumpDict 101) [] .streaming) =
      some (.ok (DState.mk ⟨0, 1, 9⟩ (c8Input.drop 118) (.index 101) 65 103 (pumpDict 102) (List.replicate 103 65) .streaming)) := by
  decide

theorem c8Step104 :
    step 200 (DState.mk ⟨0, 1, 9⟩ (c8Input.drop 118) (.index 101) 65 103 (pumpDict 102) [] .streaming) =
      some (.ok (DState.mk ⟨0, 0, 9⟩ (c8Input.drop 119) (.index 102) 65 104 (pumpDict 103) (List.replicate 104 65) .streaming)) := by
  decide

theorem c8Step105 :
    step 200 (DState.mk ⟨0, 0, 9⟩ (c8Input.drop 119) (.index 102) 65 104 (pumpDict 103) [] .streaming) =
      some (.ok (DState.mk ⟨112, 7, 9⟩ (c8Input.drop 121) (.index 103) 65 105 (pumpDict 104) (List.replicate 105 65) .streaming)) := by
  decide

theorem c8Step106 :
    step 200 (DState.mk ⟨112, 7, 9⟩ (c8Input.drop 121) (.index 103) 65 105 (pumpDict 104) [] .streaming) =
      some (.ok (DState.mk ⟨49, 6, 9⟩ (c8Input.drop 122) (.index 104) 65 106 (pumpDict 105) (List.replicate 106 65) .streaming)) := by
  decide

theorem c8Step107 :
    step 200 (DState.mk ⟨49, 6, 9⟩ (c8Input.drop 122) (.index 104) 65 106 (pumpDict 105) [] .streaming) =
      some (.ok (DState.mk ⟨18, 5, 9⟩ (c8Input.drop 123) (.index 105) 65 107 (pumpDict 106) (List.replicate 107 65) .streaming)) := by
  decide

theorem c8Step108 :
    step 200 (DState.mk ⟨18, 5, 9⟩ (c8Input.drop 123) (.index 105) 65 107 (pumpDict 106) [] .streaming) =
      some (.ok (DState.mk ⟨3, 4, 9⟩ (c8Input.drop 124) (.index 106) 65 108 (pumpDict 107) (List.replicate 108 65) .streaming)) := by
  decide

theorem c8Step109 :
    step 200 (DState.mk ⟨3, 4, 9⟩ (c8Input.drop 124) (.index 106) 65 108 (pumpDict 107) [] .streaming) =
      some (.ok (DState.mk ⟨4, 3, 9⟩ (c8Input.drop 125) (.index 107) 65 109 (pumpDict 108) (List.replicate 109 65) .streaming)) := by
  decide

theorem c8Step110 :
    step 200 (DState.mk ⟨4, 3, 9⟩ (c8Input.drop 125) (.index 107) 65 109 (pumpDict 108) [] .streaming) =
      some (.ok (DState.mk ⟨1, 2, 9⟩ (c8Input.drop 126) (.index 108) 65 110 (pumpDict 109) (List.replicate 110 65) .streaming)) := by
  decide

theorem c8Step111 :
    step 200 (DState.mk ⟨1, 2, 9⟩ (c8Input.drop 126) (.index 108) 65 110 (pumpDict 109) [] .streaming) =
      some (.ok (DState.mk ⟨0, 1, 9⟩ (c8Input.drop 127) (.index 109) 65 111 (pumpDict 110) (List.replicate 111 65) .streaming)) := by
  decide

theorem c8Step112 :
    step 200 (DState.mk ⟨0, 1, 9⟩ (c8Input.drop 127) (.index 109) 65 111 (pumpDict 110) [] .streaming) =
      some (.ok (DState.mk ⟨0, 0, 9⟩ (c8Input.drop 128) (.index 110) 65 112 (pumpDict 111) (List.replicate 112 65) .streaming)) := by
  decide

theorem c8Step113 :
    step 200 (DState.mk ⟨0, 0, 9⟩ (c8Input.drop 128) (.index 110) 65 112 (pumpDict 111) [] .streaming) =
      some (.ok (DState.mk ⟨120, 7, 9⟩ (c8Input.drop 130) (.index 111) 65 113 (pumpDict 112) (List.replicate 113 65) .streaming)) := by
  decide

theorem c8Step114 :
    step 200 (DState.mk ⟨120, 7, 9⟩ (c8Input.drop 130) (.index 111) 65 113 (pumpDict 112) [] .streaming) =
      some (.ok (DState.mk ⟨57, 6, 9⟩ (c8Input.drop 131) (.index 112) 65 114 (pumpDict 113) (List.replicate 114 65) .streaming)) := by
  decide

theorem c8Step115 :
    step 200 (DState.mk ⟨57, 6, 9⟩ (c8Input.drop 131) (.index 112) 65 114 (pumpDict 113) [] .streaming) =
      some (.ok (DState.mk ⟨26, 5, 9⟩ (c8Input.drop 132) (.index 113) 65 115 (pumpDict 114) (List.replicate 115 65) .streaming)) := by
  decide

theorem c8Step116 :
    step 200 (DState.mk ⟨26, 5, 9⟩ (c8Input.drop 132) (.index 113) 65 115 (pumpDict 114) [] .streaming) =
      some (.ok (DState.mk ⟨11, 4, 9⟩ (c8Input.drop 133) (.index 114) 65 116 (pumpDict 115) (List.replicate 116 65) .streaming)) := by
  decide

theorem c8Step117 :
    step 200 (DState.mk ⟨11, 4, 9⟩ (c8Input.drop 133) (.index 114) 65 116 (pumpDict 115) [] .streaming) =
      some (.ok (DState.mk ⟨4, 3, 9⟩ (c8Input.drop 134) (.index 115) 65 117 (pumpDict 116) (List.replicate 117 65) .streaming)) := by
  decide

theorem c8Step118 :
    step 200 (DState.mk ⟨4, 3, 9⟩ (c8Input.drop 134) (.index 115) 65 117 (pumpDict 116) [] .streaming) =
      some (.ok (DState.mk ⟨1, 2, 9⟩ (c8Input.drop 135) (.index 116) 65 118 (pumpDict 117) (List.replicate 118 65) .streaming)) := by
  decide

theorem c8Step119 :
    step 200 (DState.mk ⟨1, 2, 9⟩ (c8Input.drop 135) (.index 116) 65 118 (pumpDict 117) [] .streaming) =
      some (.ok (DState.mk ⟨0, 1, 9⟩ (c8Input.drop 136) (.index 117) 65 119 (pumpDict 118) (List.replicate 119 65) .streaming)) := by
  decide

theorem c8Step120 :
    step 200 (DState.mk ⟨0, 1, 9⟩ (c8Input.drop 136) (.index 117) 65 119 (pumpDict 118) [] .streaming) =
      some (.ok (DState.mk ⟨0, 0, 9⟩ (c8Input.drop 137) (.index 118) 65 120 (pumpDict 119) (List.replicate 120 65) .streaming)) := by
  decide

theorem c8Step121 :
    step 200 (DState.mk ⟨0, 0, 9⟩ (c8Input.drop 137) (.index 118) 65 120 (pumpDict 119) [] .streaming) =
      some (.ok (DState.mk ⟨0, 7, 9⟩ (c8Input.drop 139) (.index 119) 65 121 (pumpDict 120) (List.replicate 121 65) .streaming)) := by
  decide

theorem c8Step122 :
    step 200 (DState.mk ⟨0, 7, 9⟩ (c8Input.drop 139) (.index 119) 65 121 (pumpDict 120) [] .streaming) =
      some (.ok (DState.mk ⟨1, 6, 9⟩ (c8Input.drop 140) (.index 120) 65 122 (pumpDict 121) (List.replicate 122 65) .streaming)) := by
  decide

theorem c8Step123 :
    step 200 (DState.mk ⟨1, 6, 9⟩ (c8Input.drop 140) (.index 120) 65 122 (pumpDict 121) [] .streaming) =
      some (.ok (DState.mk ⟨2, 5, 9⟩ (c8Input.drop 141) (.index 121) 65 123 (pumpDict 122) (List.replicate 123 65) .streaming)) := by
  decide

theorem c8Step124 :
    step 200 (DState.mk ⟨2, 5, 9⟩ (c8Input.drop 141) (.index 121) 65 123 (pumpDict 122) [] .streaming) =
      some (.ok (DState.mk ⟨3, 4, 9⟩ (c8Input.drop 142) (.index 122) 65 124 (pumpDict 123) (List.replicate 124 65) .streaming)) := by
  decide

theorem c8Step125 :
    step 200 (DState.mk ⟨3, 4, 9⟩ (c8Input.drop 142) (.index 122) 65 124 (pumpDict 123) [] .streaming) =
      some (.ok (DState.mk ⟨4, 3, 9⟩ (c8Input.drop 143) (.index 123) 65 125 (pumpDict 124) (List.replicate 125 65) .streaming)) := by
  decide

theorem c8Step126 :
    step 200 (DState.mk ⟨4, 3, 9⟩ (c8Input.drop 143) (.index 123) 65 125 (pumpDict 124) [] .streaming) =
      some (.ok (DState.mk ⟨1, 2, 9⟩ (c8Input.drop 144) (.index 124) 65 126 (pumpDict 125) (List.replicate 126 65) .streaming)) := by
  decide

theorem c8Step127 :
    step 200 (DState.mk ⟨1, 2, 9⟩ (c8Input.drop 144) (.index 124) 65 126 (pumpDict 125) [] .streaming) =
      some (.ok (DState.mk ⟨0, 1, 9⟩ (c8Input.drop 145) (.index 125) 65 127 (pumpDict 126) (List.replicate 127 65) .streaming)) := by
  decide

theorem c8Step128 :
    step 200 (DState.mk ⟨0, 1, 9⟩ (c8Input.drop 145) (.index 125) 65 127 (pumpDict 126) [] .streaming) =
      some (.ok (DState.mk ⟨0, 0, 9⟩ (c8Input.drop 146) (.index 126) 65 128 (pumpDict 127) (List.replicate 128 65) .streaming)) := by
  decide

theorem c8Step129 :
    step 200 (DState.mk ⟨0, 0, 9⟩ (c8Input.drop 146) (.index 126) 65 128 (pumpDict 127) [] .streaming) =
      some (.ok (DState.mk ⟨0, 0, 9⟩ (c8Input.drop 148) (.index 126) 65 128 (pumpDict 127) [] .segmentStart)) := by
  decide

theorem c8Step130 :
    step 200 (DState.mk ⟨0, 0, 9⟩ (c8Input.drop 148) (.index 126) 65 128 (pumpDict 127) [] .segmentStart) =
      some (.ok (DState.mk ⟨8, 7, 9⟩ (c8Input.drop 150) (.value 66) 66 128 [] [66] .streaming)) := by
  decide

theorem c8Step131 :
    step 200 (DState.mk ⟨8, 7, 9⟩ (c8Input.drop 150) (.value 66) 66 128 [] [] .streaming) =
      some (.ok (DState.mk ⟨13, 6, 9⟩ (c8Input.drop 151) (.index 0) 66 2 [] [66, 66] .streaming)) := by
  decide

theorem c8Step132 :
    step 200 (DState.mk ⟨13, 6, 9⟩ (c8Input.drop 151) (.index 0) 66 2 [] [] .streaming) =
      some (.ok (DState.mk ⟨0, 5, 9⟩ (c8Input.drop 152) (.value 69) 69 1 [⟨69, (.index 0)⟩] [69] .streaming)) := by
  decide

/-- the self-referential dictionary state is reachable on `c8Input`. -/
theorem c8_cycle_reachable :
    ∃ s, Reaches (initState c8Input) s ∧
      s.dictionary = [⟨0x45, .index 0⟩] := by
  have h0 : Reaches (initState c8Input) (initState c8Input) := Reaches.refl _
  have h1 := Reaches.tail _ _ _ 200 h0 (step_out_param c8Step0 [])
  have h2 := Reaches.tail _ _ _ 200 h1 (step_out_param c8Step1 _)
  have h3 := Reaches.tail _ _ _ 200 h2 (step_out_param c8Step2 _)
  have h4 := Reaches.tail _ _ _ 200 h3 (step_out_param c8Step3 _)
  have h5 := Reaches.tail _ _ _ 200 h4 (step_out_param c8Step4 _)
  have h6 := Reaches.tail _ _ _ 200 h5 (step_out_param c8Step5 _)
  have h7 := Reaches.tail _ _ _ 200 h6 (step_out_param c8Step6 _)
  have h8 := Reaches.tail _ _ _ 200 h7 (step_out_param c8Step7 _)
  have h9 := Reaches.tail _ _ _ 200 h8 (step_out_param c8Step8 _)
  have h10 := Reaches.tail _ _ _ 200 h9 (step_out_param c8Step9 _)
  have h11 := Reaches.tail _ _ _ 200 h10 (step_out_param c8Step10 _)
  have h12 := Reaches.tail _ _ _ 200 h11 (step_out_param c8Step11 _)
  have h13 := Reaches.tail _ _ _ 200 h12 (step_out_param c8Step12 _)
  have h14 := Reaches.tail _ _ _ 200 h13 (step_out_param c8Step13 _)
  have h15 := Reaches.tail _ _ _ 200 h14 (step_out_param c8Step14 _)
  have h16 := Reaches.tail _ _ _ 200 h15 (step_out_param c8Step15 _)
  have h17 := Reaches.tail _ _ _ 200 h16 (step_out_param c8Step16 _)
  have h18 := Reaches.tail _ _ _ 200 h17 (step_out_param c8Step17 _)
  have h19 := Reaches.tail _ _ _ 200 h18 (step_out_param c8Step18 _)
  have h20 := Reaches.tail _ _ _ 200 h19 (step_out_param c8Step19 _)
  have h21 := Reaches.tail _ _ _ 200 h20 (step_out_param c8Step20 _)
  have h22 := Reaches.tail _ _ _ 200 h21 (step_out_param c8Step21 _)
  have h23 := Reaches.tail _ _ _ 200 h22 (step_out_param c8Step22 _)
  have h24 := Reaches.tail _ _ _ 200 h23 (step_out_param c8Step23 _)
  have h25 := Reaches.tail _ _ _ 200 h24 (step_out_param c8Step24 _)
  have h26 := Reaches.tail _ _ _ 200 h25 (step_out_param c8Step25 _)
  have h27 := Reaches.tail _ _ _ 200 h26 (step_out_param c8Step26 _)
  have h28 := Reaches.tail _ _ _ 200 h27 (step_out_param c8Step27 _)
  have h29 := Reaches.tail _ _ _ 200 h28 (step_out_param c8Step28 _)
  have h30 := Reaches.tail _ _ _ 200 h29 (step_out_param c8Step29 _)
  have h31 := Reaches.tail _ _ _ 200 h30 (step_out_param c8Step30 _)
  have h32 := Reaches.tail _ _ _ 200 h31 (step_out_param c8Step31 _)
  have h33 := Reaches.tail _ _ _ 200 h32 (step_out_param c8Step32 _)
  have h34 := Reaches.tail _ _ _ 200 h33 (step_out_param c8Step33 _)
  have h35 := Reaches.tail _ _ _ 200 h34 (step_out_param c8Step34 _)
  have h36 := Reaches.tail _ _ _ 200 h35 (step_out_param c8Step35 _)
  have h37 := Reaches.tail _ _ _ 200 h36 (step_out_param c8Step36 _)
  have h38 := Reaches.tail _ _ _ 200 h37 (step_out_param c8Step37 _)
  have h39 := Reaches.tail _ _ _ 200 h38 (step_out_param c8Step38 _)
  have h40 := Reaches.tail _ _ _ 200 h39 (step_out_param c8Step39 _)
  have h41 := Reaches.tail _ _ _ 200 h40 (step_out_param c8Step40 _)
  have h42 := Reaches.tail _ _ _ 200 h41 (step_out_param c8Step41 _)
  have h43 := Reaches.tail _ _ _ 200 h42 (step_out_param c8Step42 _)
  have h44 := Reaches.tail _ _ _ 200 h43 (step_out_param c8Step43 _)
  have h45 := Reaches.tail _ _ _ 200 h44 (step_out_param c8Step44 _)
  have h46 := Reaches.tail _ _ _ 200 h45 (step_out_param c8Step45 _)
  have h47 := Reaches.tail _ _ _ 200 h46 (step_out_param c8Step46 _)
  have h48 := Reaches.tail _ _ _ 200 h47 (step_out_param c8Step47 _)
  have h49 := Reaches.tail _ _ _ 200 h48 (step_out_param c8Step48 _)
  have h50 := Reaches.tail _ _ _ 200 h49 (step_out_param c8Step49 _)
  have h51 := Reaches.tail _ _ _ 200 h50 (step_out_param c8Step50 _)
  have h52 := Reaches.tail _ _ _ 200 h51 (step_out_param c8Step51 _)
  have h53 := Reaches.tail _ _ _ 200 h52 (step_out_param c8Step52 _)
  have h54 := Reaches.tail _ _ _ 200 h53 (step_out_param c8Step53 _)
  have h55 := Reaches.tail _ _ _ 200 h54 (step_out_param c8Step54 _)
  have h56 := Reaches.tail _ _ _ 200 h55 (step_out_param c8Step55 _)
  have h57 := Reaches.tail _ _ _ 200 h56 (step_out_param c8Step56 _)
  have h58 := Reaches.tail _ _ _ 200 h57 (step_out_param c8Step57 _)
  have h59 := Reaches.tail _ _ _ 200 h58 (step_out_param c8Step58 _)
  have h60 := Reaches.tail _ _ _ 200 h59 (step_out_param c8Step59 _)
  have h61 := Reaches.tail _ _ _ 200 h60 (step_out_param c8Step60 _)
  have h62 := Reaches.tail _ _ _ 200 h61 (step_out_param c8Step61 _)
  have h63 := Reaches.tail _ _ _ 200 h62 (step_out_param c8Step62 _)
  have h64 := Reaches.tail _ _ _ 200 h63 (step_out_param c8Step63 _)
  have h65 := Reaches.tail _ _ _ 200 h64 (step_out_param c8Step64 _)
  have h66 := Reaches.tail _ _ _ 200 h65 (step_out_param c8Step65 _)
  have h67 := Reaches.tail _ _ _ 200 h66 (step_out_param c8Step66 _)
  have h68 := Reaches.tail _ _ _ 200 h67 (step_out_param c8Step67 _)
  have h69 := Reaches.tail _ _ _ 200 h68 (step_out_param c8Step68 _)
  have h70 := Reaches.tail _ _ _ 200 h69 (step_out_param c8Step69 _)
  have h71 := Reaches.tail _ _ _ 200 h70 (step_out_param c8Step70 _)
  have h72 := Reaches.tail _ _ _ 200 h71 (step_out_param c8Step71 _)
  have h73 := Reaches.tail _ _ _ 200 h72 (step_out_param c8Step72 _)
  have h74 := Reaches.tail _ _ _ 200 h73 (step_out_param c8Step73 _)
  have h75 := Reaches.tail _ _ _ 200 h74 (step_out_param c8Step74 _)
  have h76 := Reaches.tail _ _ _ 200 h75 (step_out_param c8Step75 _)
  have h77 := Reaches.tail _ _ _ 200 h76 (step_out_param c8Step76 _)
  have h78 := Reaches.tail _ _ _ 200 h77 (step_out_param c8Step77 _)
  have h79 := Reaches.tail _ _ _ 200 h78 (step_out_param c8Step78 _)
  have h80 := Reaches.tail _ _ _ 200 h79 (step_out_param c8Step79 _)
  have h81 := Reaches.tail _ _ _ 200 h80 (step_out_param c8Step80 _)
  have h82 := Reaches.tail _ _ _ 200 h81 (step_out_param c8Step81 _)
  have h83 := Reaches.tail _ _ _ 200 h82 (step_out_param c8Step82 _)
  have h84 := Reaches.tail _ _ _ 200 h83 (step_out_param c8Step83 _)
  have h85 := Reaches.tail _ _ _ 200 h84 (step_out_param c8Step84 _)
  have h86 := Reaches.tail _ _ _ 200 h85 (step_out_param c8Step85 _)
  have h87 := Reaches.tail _ _ _ 200 h86 (step_out_param c8Step86 _)
  have h88 := Reaches.tail _ _ _ 200 h87 (step_out_param c8Step87 _)
  have h89 := Reaches.tail _ _ _ 200 h88 (step_out_param c8Step88 _)
  have h90 := Reaches.tail _ _ _ 200 h89 (step_out_param c8Step89 _)
  have h91 := Reaches.tail _ _ _ 200 h90 (step_out_param c8Step90 _)
  have h92 := Reaches.tail _ _ _ 200 h91 (step_out_param c8Step91 _)
  have h93 := Reaches.tail _ _ _ 200 h92 (step_out_param c8Step92 _)
  have h94 := Reaches.tail _ _ _ 200 h93 (step_out_param c8Step93 _)
  have h95 := Reaches.tail _ _ _ 200 h94 (step_out_param c8Step94 _)
  have h96 := Reaches.tail _ _ _ 200 h95 (step_out_param c8Step95 _)
  have h97 := Reaches.tail _ _ _ 200 h96 (step_out_param c8Step96 _)
  have h98 := Reaches.tail _ _ _ 200 h97 (step_out_param c8Step97 _)
  have h99 := Reaches.tail _ _ _ 200 h98 (step_out_param c8Step98 _)
  have h100 := Reaches.tail _ _ _ 200 h99 (step_out_param c8Step99 _)
  have h101 := Reaches.tail _ _ _ 200 h100 (step_out_param c8Step100 _)
  have h102 := Reaches.tail _ _ _ 200 h101 (step_out_param c8Step101 _)
  have h103 := Reaches.tail _ _ _ 200 h102 (step_out_param c8Step102 _)
  have h104 := Reaches.tail _ _ _ 200 h103 (step_out_param c8Step103 _)
  have h105 := Reaches.tail _ _ _ 200 h104 (step_out_param c8Step104 _)
  have h106 := Reaches.tail _ _ _ 200 h105 (step_out_param c8Step105 _)
  have h107 := Reaches.tail _ _ _ 200 h106 (step_out_param c8Step106 _)
  have h108 := Reaches.tail _ _ _ 200 h107 (step_out_param c8Step107 _)
  have h109 := Reaches.tail _ _ _ 200 h108 (step_out_param c8Step108 _)
  have h110 := Reaches.tail _ _ _ 200 h109 (step_out_param c8Step109 _)
  have h111 := Reaches.tail _ _ _ 200 h110 (step_out_param c8Step110 _)
  have h112 := Reaches.tail _ _ _ 200 h111 (step_out_param c8Step111 _)
  have h113 := Reaches.tail _ _ _ 200 h112 (step_out_param c8Step112 _)
  have h114 := Reaches.tail _ _ _ 200 h113 (step_out_param c8Step113 _)
  have h115 := Reaches.tail _ _ _ 200 h114 (step_out_param c8Step114 _)
  have h116 := Reaches.tail _ _ _ 200 h115 (step_out_param c8Step115 _)
  have h117 := Reaches.tail _ _ _ 200 h116 (step_out_param c8Step116 _)
  have h118 := Reaches.tail _ _ _ 200 h117 (step_out_param c8Step117 _)
  have h119 := Reaches.tail _ _ _ 200 h118 (step_out_param c8Step118 _)
  have h120 := Reaches.tail _ _ _ 200 h119 (step_out_param c8Step119 _)
  have h121 := Reaches.tail _ _ _ 200 h120 (step_out_param c8Step120 _)
  have h122 := Reaches.tail _ _ _ 200 h121 (step_out_param c8Step121 _)
  have h123 := Reaches.tail _ _ _ 200 h122 (step_out_param c8Step122 _)
  have h124 := Reaches.tail _ _ _ 200 h123 (step_out_param c8Step123 _)
  have h125 := Reaches.tail _ _ _ 200 h124 (step_out_param c8Step124 _)
  have h126 := Reaches.tail _ _ _ 200 h125 (step_out_param c8Step125 _)
  have h127 := Reaches.tail _ _ _ 200 h126 (step_out_param c8Step126 _)
  have h128 := Reaches.tail _ _ _ 200 h127 (step_out_param c8Step127 _)
  have h129 := Reaches.tail _ _ _ 200 h128 (step_out_param c8Step128 _)
  have h130 := Reaches.tail _ _ _ 200 h129 (step_out_param c8Step129 _)
  have h131 := Reaches.tail _ _ _ 200 h130 (step_out_param c8Step130 _)
  have h132 := Reaches.tail _ _ _ 200 h131 (step_out_param c8Step131 _)
  have h133 := Reaches.tail _ _ _ 200 h132 (step_out_param c8Step132 _)
  exact ⟨_, h133, rfl⟩

/-- Claim C8 counterexample: the self-referential dictionary `[(0x45, Index 0)]`
is reachable (via `c8_cycle_reachable`), chain-following from its single entry
never reaches a `Value` for any fuel (the source loop diverges), and the
entry's `next` link names the entry's own slot, refuting the claim that every
inserted entry's chain reaches a literal after finitely many steps. -/
theorem dictionary_cycle_counterexample :
    (∀ fuel scratch,
        chainLoop [⟨0x45, .index 0⟩] fuel (.index 0) scratch = none) ∧
    ¬ (∀ (input : List Nat) (s : DState), Reachable input s →
        ∀ i e, s.dictionary[i]? = some e →
          (∃ b, e.next = Code.value b) ∨
            ∃ q, e.next = Code.index q ∧ q < i) := by
  constructor
  · intro fuel
    induction fuel with
    | zero => intro scratch; rfl
    | succ n ih => intro scratch; exact ih (69 :: scratch)
  · intro hcl
    obtain ⟨s, hre, hdict⟩ := c8_cycle_reachable
    have hwf := hcl c8Input s hre 0 ⟨0x45, .index 0⟩ (by rw [hdict]; rfl)
    rcases hwf with ⟨b, hb⟩ | ⟨q, hq, hqlt⟩
    · exact Code.noConfusion hb
    · have hq0 : Code.index 0 = Code.index q := hq
      injection hq0 with hq0
      omega

end Hpcmp
